import Mathlib

/-!
# Onion visibility of profiles

A shallow embedding of `backend/utils/onionLogic.js` (the visibility policy and
the tier resolver), of the relationship operations of
`backend/controllers/friendController.js` and of `getProfileById` of
`backend/controllers/profileController.js`, over the document shape declared in
`backend/models/Profile.js`.

Conventions of the embedding.

* A JavaScript property that may be `undefined` or `null` is an `Option`; the
  optional chain `a?.b` is `Option.bind`.
* Identifiers are the strings that `ObjectId.toString()` yields.  The viewer id
  handed to the policy is `Option String`; `!viewerProfileId` is decided by
  `jsTruthy`, so `null`, `undefined` and the empty string are all falsy.
* A JavaScript object built by successive property assignments is the list of
  its `(key, value)` pairs in insertion order.
* An operation that can raise a `TypeError` returns `Except JsError`, and a
  `try`/`catch` block is a `match` on that result.
-/

namespace OnionPost

/-! ## Data model (`models/Profile.js`) -/

/-- One entry of `friends`: `profileId` is the peer, `level` the tier granted. -/
structure Friend where
  profileId : Option String
  level : Option String
deriving DecidableEq, Repr

/-- One tier of the policy: `visibility.public`, `.follower` or `.closeFriend`. -/
structure TierPolicy where
  fields : Option (List String)
deriving DecidableEq, Repr

/-- The `visibility` sub-document: a field list per tier. -/
structure Visibility where
  public : Option TierPolicy
  follower : Option TierPolicy
  closeFriend : Option TierPolicy
deriving DecidableEq, Repr

/-- A profile document.  `createdAt` is the timestamp in milliseconds. -/
structure Profile where
  _id : String
  userId : String
  name : Option String
  username : Option String
  bio : Option String
  avatar : Option String
  interests : Option (List String)
  isAnonymous : Option Bool
  createdAt : Option Nat
  visibility : Option Visibility
  friends : Option (List Friend)
deriving DecidableEq, Repr

/-- The JavaScript values that a profile property can hold. -/
inductive JsVal where
  | undefined
  | str (s : String)
  | bool (b : Bool)
  | date (ms : Nat)
  | strings (xs : List String)
  | policy (v : Visibility)
  | edges (fs : List Friend)
deriving DecidableEq, Repr

/-- The value of an optional string property. -/
def JsVal.ofStr : Option String → JsVal
  | some s => JsVal.str s
  | none => JsVal.undefined

/-- The value of an optional boolean property. -/
def JsVal.ofBool : Option Bool → JsVal
  | some b => JsVal.bool b
  | none => JsVal.undefined

/-- The value of an optional date property. -/
def JsVal.ofDate : Option Nat → JsVal
  | some t => JsVal.date t
  | none => JsVal.undefined

/-- The value of an optional array-of-strings property. -/
def JsVal.ofStrings : Option (List String) → JsVal
  | some xs => JsVal.strings xs
  | none => JsVal.undefined

/-- The value of the optional `visibility` property. -/
def JsVal.ofPolicy : Option Visibility → JsVal
  | some v => JsVal.policy v
  | none => JsVal.undefined

/-- The value of the optional `friends` property. -/
def JsVal.ofEdges : Option (List Friend) → JsVal
  | some fs => JsVal.edges fs
  | none => JsVal.undefined

/-- Property read `profile[key]`: `undefined` for a name the document lacks. -/
def Profile.prop (profile : Profile) (key : String) : JsVal :=
  if key = "_id" then JsVal.str profile._id
  else if key = "userId" then JsVal.str profile.userId
  else if key = "name" then JsVal.ofStr profile.name
  else if key = "username" then JsVal.ofStr profile.username
  else if key = "bio" then JsVal.ofStr profile.bio
  else if key = "avatar" then JsVal.ofStr profile.avatar
  else if key = "interests" then JsVal.ofStrings profile.interests
  else if key = "isAnonymous" then JsVal.ofBool profile.isAnonymous
  else if key = "createdAt" then JsVal.ofDate profile.createdAt
  else if key = "visibility" then JsVal.ofPolicy profile.visibility
  else if key = "friends" then JsVal.ofEdges profile.friends
  else JsVal.undefined

/-- A redacted profile: the object returned by the policy. -/
abbrev View := List (String × JsVal)

/-- The property names of a view, `Object.keys`. -/
def View.keys (view : View) : List String := view.map Prod.fst

/-! ## JavaScript primitives used by the source -/

/-- The only exception the modelled code can raise. -/
inductive JsError where
  | typeError
deriving DecidableEq, Repr

deriving instance DecidableEq for Except

/-- Truthiness of an id value: `null`, `undefined` and `''` are falsy. -/
def jsTruthy : Option String → Bool
  | none => false
  | some s => s != ""

/-- The call `x.toString()`: a `TypeError` on `null` or `undefined`. -/
def jsToString : Option String → Except JsError String
  | some s => Except.ok s
  | none => Except.error JsError.typeError

/-- The expression `x || d` on strings: `d` when `x` is missing or empty. -/
def jsOrString (x : Option String) (d : String) : String :=
  match x with
  | some s => if s = "" then d else s
  | none => d

/-- The expression `[...new Set(xs)]`: the first occurrence of each element,
in order. -/
def jsSetSpread : List String → List String
  | [] => []
  | x :: xs => x :: (jsSetSpread xs).filter (fun y => y != x)

/-! ## `utils/onionLogic.js` -/

/-- The chain `targetProfile.visibility?.public?.fields`. -/
def Profile.publicFields (targetProfile : Profile) : Option (List String) :=
  (targetProfile.visibility.bind (fun v => v.public)).bind (fun t => t.fields)

/-- The chain `targetProfile.visibility?.follower?.fields`. -/
def Profile.followerFields (targetProfile : Profile) : Option (List String) :=
  (targetProfile.visibility.bind (fun v => v.follower)).bind (fun t => t.fields)

/-- The chain `targetProfile.visibility?.closeFriend?.fields`. -/
def Profile.closeFriendFields (targetProfile : Profile) : Option (List String) :=
  (targetProfile.visibility.bind (fun v => v.closeFriend)).bind (fun t => t.fields)

/-- The hard-coded fallback `['username', 'avatar']` of lines 18, 60 and 73. -/
def defaultPublicFields : List String := ["username", "avatar"]

/-- Lines 84-114: copy `_id`, then each whitelisted field that
`allowedFields.includes`. -/
def filterProfileFields (profile : Profile) (allowedFields : List String) : View :=
  [("_id", JsVal.str profile._id)]
    ++ (if allowedFields.contains "username"
          then [("username", JsVal.ofStr profile.username)] else [])
    ++ (if allowedFields.contains "name"
          then [("name", JsVal.ofStr profile.name)] else [])
    ++ (if allowedFields.contains "bio"
          then [("bio", JsVal.ofStr profile.bio)] else [])
    ++ (if allowedFields.contains "avatar"
          then [("avatar", JsVal.ofStr profile.avatar)] else [])
    ++ (if allowedFields.contains "interests"
          then [("interests", JsVal.ofStrings profile.interests)] else [])
    ++ (if allowedFields.contains "isAnonymous"
          then [("isAnonymous", JsVal.ofBool profile.isAnonymous)] else [])
    ++ (if allowedFields.contains "createdAt"
          then [("createdAt", JsVal.ofDate profile.createdAt)] else [])

/-- Lines 25-35: the object returned to the owner. -/
def ownerView (targetProfile : Profile) : View :=
  [ ("_id", JsVal.str targetProfile._id),
    ("username", JsVal.ofStr targetProfile.username),
    ("name", JsVal.ofStr targetProfile.name),
    ("bio", JsVal.ofStr targetProfile.bio),
    ("avatar", JsVal.ofStr targetProfile.avatar),
    ("interests", JsVal.ofStrings targetProfile.interests),
    ("isAnonymous", JsVal.ofBool targetProfile.isAnonymous),
    ("createdAt", JsVal.ofDate targetProfile.createdAt),
    ("visibility", JsVal.ofPolicy targetProfile.visibility) ]

/-- Lines 39-41 and 129-131: `targetProfile.friends?.find(friend =>
friend.profileId?.toString() === viewerProfileId.toString())`. -/
def findRelationship (targetProfile : Profile) (viewer : String) : Option Friend :=
  targetProfile.friends.bind
    (fun fs => fs.find? (fun friend => decide (friend.profileId = some viewer)))

/-- Lines 43-61: the allowed-field list chosen from `relationship?.level`. -/
def allowedFieldsFor (targetProfile : Profile) (relationship : Option Friend) :
    List String :=
  let level := relationship.bind (fun r => r.level)
  if level = some "close" then
    targetProfile.publicFields.getD []
      ++ targetProfile.followerFields.getD []
      ++ targetProfile.closeFriendFields.getD []
  else if level = some "follower" then
    targetProfile.publicFields.getD [] ++ targetProfile.followerFields.getD []
  else
    targetProfile.publicFields.getD defaultPublicFields

/-- Lines 11-68: the body of the `try` block of `getVisibleFields`. -/
def getVisibleFieldsTry (targetProfile : Profile) (viewerProfileId : Option String) :
    Except JsError View :=
  if !jsTruthy viewerProfileId then
    Except.ok (filterProfileFields targetProfile
      (targetProfile.publicFields.getD defaultPublicFields))
  else do
    let viewer ← jsToString viewerProfileId
    if viewer = targetProfile._id then
      Except.ok (ownerView targetProfile)
    else
      let relationship := findRelationship targetProfile viewer
      let allowedFields := jsSetSpread (allowedFieldsFor targetProfile relationship)
      Except.ok (filterProfileFields targetProfile allowedFields)

/-- Lines 9-76: `getVisibleFields`, the `try` body with its `catch` fallback to
the public fields. -/
def getVisibleFields (targetProfile : Profile) (viewerProfileId : Option String) :
    Except JsError View :=
  match getVisibleFieldsTry targetProfile viewerProfileId with
  | Except.ok view => Except.ok view
  | Except.error _ =>
    Except.ok (filterProfileFields targetProfile
      (targetProfile.publicFields.getD defaultPublicFields))

/-- Lines 122-134: `getRelationshipLevel`. -/
def getRelationshipLevel (targetProfile : Profile) (viewerProfileId : Option String) :
    Except JsError String :=
  if !jsTruthy viewerProfileId then Except.ok "public"
  else do
    let viewer ← jsToString viewerProfileId
    if viewer = targetProfile._id then
      Except.ok "owner"
    else
      let relationship := findRelationship targetProfile viewer
      Except.ok (jsOrString (relationship.bind (fun r => r.level)) "public")

/-- Lines 18 and 43-64: the allowed-field list that `getVisibleFields` builds
for a viewer other than the owner, the public list for a falsy viewer id and
the deduplicated list chosen from the viewer's entry otherwise. -/
def allowedFieldsOf (targetProfile : Profile) (viewerProfileId : Option String) :
    List String :=
  match viewerProfileId with
  | some viewer =>
    if viewer = "" then targetProfile.publicFields.getD defaultPublicFields
    else jsSetSpread (allowedFieldsFor targetProfile (findRelationship targetProfile viewer))
  | none => targetProfile.publicFields.getD defaultPublicFields

/-! ## `getVisibleFields` on documents with malformed field lists

The definitions above read a `fields` slot as a list of strings, the type that
`models/Profile.js` declares.  Below the slot may hold a value that is not an
array, so that the `TypeError`s of lines 47-57, 64 and 91 and the `catch` of
lines 70-75 can be followed.  A sub-object that is not an object reads as one
without `fields`. -/

/-- The value of a `fields` slot: missing (`undefined`, `null` or another
falsy value), an array of strings, or a truthy value that is not iterable and
has no `includes` method, such as a number, `true` or a plain object. -/
inductive RawFields where
  | missing
  | strings (xs : List String)
  | scalar
deriving DecidableEq, Repr

/-- One tier of a policy whose `fields` may be malformed. -/
structure RawTier where
  fields : RawFields
deriving DecidableEq, Repr

/-- The `visibility` object of a document whose field lists may be malformed. -/
structure RawVisibility where
  public : Option RawTier
  follower : Option RawTier
  closeFriend : Option RawTier
deriving DecidableEq, Repr

/-- A profile document whose field lists may be malformed: `doc` gives every
property but `visibility`, which is read from `visibility`. -/
structure RawProfile where
  doc : Profile
  visibility : Option RawVisibility
deriving DecidableEq, Repr

/-- A value in a view of such a document. -/
inductive RawVal where
  | plain (v : JsVal)
  | policy (v : RawVisibility)
deriving DecidableEq, Repr

/-- A view of a document whose field lists may be malformed. -/
abbrev RawView := List (String × RawVal)

/-- A well-typed field list as the value of its slot. -/
def RawFields.ofOption : Option (List String) → RawFields
  | some xs => RawFields.strings xs
  | none => RawFields.missing

/-- A well-typed policy as a policy whose lists may be malformed. -/
def Visibility.toRaw (v : Visibility) : RawVisibility :=
  { public := v.public.map (fun t => { fields := RawFields.ofOption t.fields }),
    follower := v.follower.map (fun t => { fields := RawFields.ofOption t.fields }),
    closeFriend := v.closeFriend.map (fun t => { fields := RawFields.ofOption t.fields }) }

/-- A well-typed document as a document whose lists may be malformed. -/
def Profile.toRaw (P : Profile) : RawProfile :=
  { doc := P, visibility := P.visibility.map Visibility.toRaw }

/-- A well-typed value carried over. -/
def JsVal.toRaw : JsVal → RawVal
  | JsVal.policy v => RawVal.policy v.toRaw
  | v => RawVal.plain v

/-- A well-typed view carried over, value by value. -/
def View.toRaw (view : View) : RawView := view.map (fun kv => (kv.1, kv.2.toRaw))

/-- The chain `targetProfile.visibility?.public?.fields`. -/
def RawProfile.publicFields (targetProfile : RawProfile) : RawFields :=
  match (targetProfile.visibility.bind (fun v => v.public)) with
  | some t => t.fields
  | none => RawFields.missing

/-- The chain `targetProfile.visibility?.follower?.fields`. -/
def RawProfile.followerFields (targetProfile : RawProfile) : RawFields :=
  match (targetProfile.visibility.bind (fun v => v.follower)) with
  | some t => t.fields
  | none => RawFields.missing

/-- The chain `targetProfile.visibility?.closeFriend?.fields`. -/
def RawProfile.closeFriendFields (targetProfile : RawProfile) : RawFields :=
  match (targetProfile.visibility.bind (fun v => v.closeFriend)) with
  | some t => t.fields
  | none => RawFields.missing

/-- The expression `x || d` on the value of a `fields` slot. -/
def rawOr (x d : RawFields) : RawFields :=
  match x with
  | RawFields.missing => d
  | _ => x

/-- The spread `...x` inside an array literal: a `TypeError` unless `x` is
iterable. -/
def rawSpread : RawFields → Except JsError (List String)
  | RawFields.strings xs => Except.ok xs
  | _ => Except.error JsError.typeError

/-- The expression `[...new Set(x)]`: `new Set(undefined)` is empty, and a
value that is not iterable is a `TypeError`. -/
def rawSetSpread : RawFields → Except JsError (List String)
  | RawFields.strings xs => Except.ok (jsSetSpread xs)
  | RawFields.missing => Except.ok []
  | RawFields.scalar => Except.error JsError.typeError

/-- Lines 84-114 on any value of `allowedFields`: the call
`allowedFields.includes` of line 91 is a `TypeError` unless the value is an
array. -/
def filterProfileFieldsRaw (profile : RawProfile) (allowedFields : RawFields) :
    Except JsError RawView :=
  match allowedFields with
  | RawFields.strings xs => Except.ok (filterProfileFields profile.doc xs).toRaw
  | _ => Except.error JsError.typeError

/-- Lines 25-35 on a document whose lists may be malformed. -/
def ownerViewRaw (targetProfile : RawProfile) : RawView :=
  [ ("_id", RawVal.plain (JsVal.str targetProfile.doc._id)),
    ("username", RawVal.plain (JsVal.ofStr targetProfile.doc.username)),
    ("name", RawVal.plain (JsVal.ofStr targetProfile.doc.name)),
    ("bio", RawVal.plain (JsVal.ofStr targetProfile.doc.bio)),
    ("avatar", RawVal.plain (JsVal.ofStr targetProfile.doc.avatar)),
    ("interests", RawVal.plain (JsVal.ofStrings targetProfile.doc.interests)),
    ("isAnonymous", RawVal.plain (JsVal.ofBool targetProfile.doc.isAnonymous)),
    ("createdAt", RawVal.plain (JsVal.ofDate targetProfile.doc.createdAt)),
    ("visibility",
      match targetProfile.visibility with
      | some v => RawVal.policy v
      | none => RawVal.plain JsVal.undefined) ]

/-- Lines 43-61 on a document whose lists may be malformed: the spreads of
lines 47-51 and 54-57 can raise a `TypeError`. -/
def allowedFieldsForRaw (targetProfile : RawProfile) (relationship : Option Friend) :
    Except JsError RawFields :=
  let level := relationship.bind (fun r => r.level)
  if level = some "close" then do
    let a ← rawSpread (rawOr targetProfile.publicFields (RawFields.strings []))
    let b ← rawSpread (rawOr targetProfile.followerFields (RawFields.strings []))
    let c ← rawSpread (rawOr targetProfile.closeFriendFields (RawFields.strings []))
    Except.ok (RawFields.strings (a ++ b ++ c))
  else if level = some "follower" then do
    let a ← rawSpread (rawOr targetProfile.publicFields (RawFields.strings []))
    let b ← rawSpread (rawOr targetProfile.followerFields (RawFields.strings []))
    Except.ok (RawFields.strings (a ++ b))
  else
    Except.ok (rawOr targetProfile.publicFields (RawFields.strings defaultPublicFields))

/-- Lines 11-68: the body of the `try` block on a document whose lists may be
malformed. -/
def getVisibleFieldsRawTry (targetProfile : RawProfile) (viewerProfileId : Option String) :
    Except JsError RawView :=
  if !jsTruthy viewerProfileId then
    filterProfileFieldsRaw targetProfile
      (rawOr targetProfile.publicFields (RawFields.strings defaultPublicFields))
  else do
    let viewer ← jsToString viewerProfileId
    if viewer = targetProfile.doc._id then
      Except.ok (ownerViewRaw targetProfile)
    else do
      let relationship := findRelationship targetProfile.doc viewer
      let allowedFields ← allowedFieldsForRaw targetProfile relationship
      let deduplicated ← rawSetSpread allowedFields
      filterProfileFieldsRaw targetProfile (RawFields.strings deduplicated)

/-- Lines 9-76 on a document whose lists may be malformed: the `catch` block
calls `filterProfileFields` outside any `try`, so its `TypeError` propagates. -/
def getVisibleFieldsRaw (targetProfile : RawProfile) (viewerProfileId : Option String) :
    Except JsError RawView :=
  match getVisibleFieldsRawTry targetProfile viewerProfileId with
  | Except.ok view => Except.ok view
  | Except.error _ =>
    filterProfileFieldsRaw targetProfile
      (rawOr targetProfile.publicFields (RawFields.strings defaultPublicFields))

/-! ## `controllers/friendController.js`

The collection is the list of stored documents; each stored `_id` is the
lower-case hexadecimal string of its ObjectId.  The driver turns a 24-digit
hexadecimal string into an ObjectId, whose `toString()` is lower-case, both when
`findById` looks a document up and when a pushed `profileId` is stored. -/

/-- The collection of profile documents. -/
abbrev Db := List Profile

/-- The JSON body and status code sent by a handler. -/
structure Response where
  status : Nat
  message : String
  relationship : Option String
deriving DecidableEq, Repr

/-- One character of the class `[0-9a-fA-F]`. -/
def isHexDigit (c : Char) : Bool :=
  c.isDigit || (decide ('a' ≤ c) && decide (c ≤ 'f'))
    || (decide ('A' ≤ c) && decide (c ≤ 'F'))

/-- Lines 5-9: `isValidObjectId`, the test `/^[0-9a-fA-F]{24}$/` on a string. -/
def isValidObjectId : Option String → Bool
  | none => false
  | some id => id.data.length == 24 && id.data.all isHexDigit

/-- The string of the ObjectId made from a hexadecimal string. -/
def objectIdString (id : String) : String := String.mk (id.data.map Char.toLower)

/-- The query `Profile.findById(id)`. -/
def findById (db : Db) (id : String) : Option Profile :=
  db.find? (fun p => decide (p._id = objectIdString id))

/-- The policy that the `pre('save')` hook installs, `models/Profile.js`
lines 80-84. -/
def defaultVisibility : Visibility :=
  { public := some { fields := some ["username", "avatar"] },
    follower := some { fields := some ["bio"] },
    closeFriend := some { fields := some ["interests"] } }

/-- The `pre('save')` hook of `models/Profile.js`, lines 78-87. -/
def preSave (doc : Profile) : Profile :=
  if doc.visibility.isNone then { doc with visibility := some defaultVisibility }
  else doc

/-- The call `doc.save()`: run the hook and replace the stored document. -/
def save (db : Db) (doc : Profile) : Db :=
  db.map (fun p => if p._id = doc._id then preSave doc else p)

/-- Index of the first entry with `friend.profileId.toString() ===
targetProfileId`; a `TypeError` when an entry visited on the way has no
`profileId`. -/
def findFriendIndex : List Friend → String → Except JsError (Option Nat)
  | [], _ => Except.ok none
  | friend :: rest, targetProfileId => do
    let s ← jsToString friend.profileId
    if s = targetProfileId then Except.ok (some 0)
    else do
      let r ← findFriendIndex rest targetProfileId
      Except.ok (r.map Nat.succ)

/-- The assignment `friends[i].level = level`. -/
def setLevelAt (friends : List Friend) (i : Nat) (level : String) : List Friend :=
  match friends[i]? with
  | some friend => friends.set i { friend with level := some level }
  | none => friends

/-- Lines 41-55 and 134-148: set the level of the entry found for the target,
or push a new entry.  A missing `friends` array makes `.find` a `TypeError`. -/
def upsertFriend (friends : Option (List Friend)) (targetProfileId : String)
    (level : String) : Except JsError (List Friend) := do
  let fs ← match friends with
    | some fs => Except.ok fs
    | none => Except.error JsError.typeError
  let existingFriend ← findFriendIndex fs targetProfileId
  match existingFriend with
  | some i => Except.ok (setLevelAt fs i level)
  | none =>
    Except.ok (fs ++ [{ profileId := some (objectIdString targetProfileId),
                        level := some level }])

/-- Lines 14-68: `followProfile`, from the collection, `req.user.profileId` and
`req.params.profileId` to the response and the collection afterwards. -/
def followProfile (db : Db) (viewerProfileId : Option String)
    (targetProfileId : String) : Response × Db :=
  if !isValidObjectId viewerProfileId || !isValidObjectId (some targetProfileId) then
    ({ status := 400, message := "Invalid profile ID format", relationship := none }, db)
  else if viewerProfileId = some targetProfileId then
    ({ status := 400, message := "You cannot follow yourself", relationship := none }, db)
  else
    match viewerProfileId.bind (findById db) with
    | none =>
      ({ status := 404, message := "Viewer profile not found", relationship := none }, db)
    | some viewerProfile =>
      match findById db targetProfileId with
      | none =>
        ({ status := 404, message := "Target profile not found", relationship := none },
          db)
      | some _ =>
        match upsertFriend viewerProfile.friends targetProfileId "follower" with
        | Except.error _ =>
          ({ status := 500, message := "Server error", relationship := none }, db)
        | Except.ok friends =>
          ({ status := 200, message := "Profile followed successfully",
             relationship := some "follower" },
            save db { viewerProfile with friends := some friends })

/-- Lines 107-161: `addCloseFriend`. -/
def addCloseFriend (db : Db) (viewerProfileId : Option String)
    (targetProfileId : String) : Response × Db :=
  if !isValidObjectId viewerProfileId || !isValidObjectId (some targetProfileId) then
    ({ status := 400, message := "Invalid profile ID format", relationship := none }, db)
  else if viewerProfileId = some targetProfileId then
    ({ status := 400, message := "You cannot add yourself as close friend",
       relationship := none }, db)
  else
    match viewerProfileId.bind (findById db) with
    | none =>
      ({ status := 404, message := "Viewer profile not found", relationship := none }, db)
    | some viewerProfile =>
      match findById db targetProfileId with
      | none =>
        ({ status := 404, message := "Target profile not found", relationship := none },
          db)
      | some _ =>
        match upsertFriend viewerProfile.friends targetProfileId "close" with
        | Except.error _ =>
          ({ status := 500, message := "Server error", relationship := none }, db)
        | Except.ok friends =>
          ({ status := 200, message := "Profile added as close friend",
             relationship := some "close" },
            save db { viewerProfile with friends := some friends })

/-- Lines 90-92: `friends.filter(friend => friend.profileId.toString() !==
targetProfileId)`; a `TypeError` when an entry has no `profileId`. -/
def filterFriends : List Friend → String → Except JsError (List Friend)
  | [], _ => Except.ok []
  | friend :: rest, targetProfileId => do
    let s ← jsToString friend.profileId
    let kept ← filterFriends rest targetProfileId
    if s ≠ targetProfileId then Except.ok (friend :: kept) else Except.ok kept

/-- Lines 73-102: `unfollowProfile`. -/
def unfollowProfile (db : Db) (viewerProfileId : Option String)
    (targetProfileId : String) : Response × Db :=
  if !isValidObjectId viewerProfileId || !isValidObjectId (some targetProfileId) then
    ({ status := 400, message := "Invalid profile ID format", relationship := none }, db)
  else
    match viewerProfileId.bind (findById db) with
    | none =>
      ({ status := 404, message := "Viewer profile not found", relationship := none }, db)
    | some viewerProfile =>
      match viewerProfile.friends with
      | none => ({ status := 500, message := "Server error", relationship := none }, db)
      | some fs =>
        match filterFriends fs targetProfileId with
        | Except.error _ =>
          ({ status := 500, message := "Server error", relationship := none }, db)
        | Except.ok friends =>
          ({ status := 200, message := "Profile unfollowed successfully",
             relationship := none },
            save db { viewerProfile with friends := some friends })

/-- Lines 191-197: downgrade a `close` entry at `friendIndex` to `follower`,
otherwise `splice(friendIndex, 1)`. -/
def downgradeOrRemove (fs : List Friend) (friendIndex : Nat) : List Friend :=
  if (fs[friendIndex]?).bind (fun friend => friend.level) = some "close" then
    setLevelAt fs friendIndex "follower"
  else fs.eraseIdx friendIndex

/-- Lines 201-202: `friends[friendIndex] ? friends[friendIndex].level : 'none'`,
read from the array as it is after the update. -/
def newLevelAt (friends : List Friend) (friendIndex : Nat) : Option String :=
  match friends[friendIndex]? with
  | some friend => friend.level
  | none => some "none"

/-- Lines 166-213: `removeCloseFriend`. -/
def removeCloseFriend (db : Db) (viewerProfileId : Option String)
    (targetProfileId : String) : Response × Db :=
  if !isValidObjectId viewerProfileId || !isValidObjectId (some targetProfileId) then
    ({ status := 400, message := "Invalid profile ID format", relationship := none }, db)
  else
    match viewerProfileId.bind (findById db) with
    | none =>
      ({ status := 404, message := "Viewer profile not found", relationship := none }, db)
    | some viewerProfile =>
      match viewerProfile.friends with
      | none => ({ status := 500, message := "Server error", relationship := none }, db)
      | some fs =>
        match findFriendIndex fs targetProfileId with
        | Except.error _ =>
          ({ status := 500, message := "Server error", relationship := none }, db)
        | Except.ok none =>
          ({ status := 400, message := "Profile not in friends list",
             relationship := none }, db)
        | Except.ok (some friendIndex) =>
          let friends := downgradeOrRemove fs friendIndex
          let newLevel := newLevelAt friends friendIndex
          ({ status := 200, message := "Close friend relationship removed",
             relationship :=
               some (if newLevel = some "follower" then "follower" else "none") },
            save db { viewerProfile with friends := some friends })

/-! ## `controllers/profileController.js` -/

/-- The status code and JSON body sent by `getProfileById`. -/
structure ProfileResponse where
  status : Nat
  message : Option String
  profile : Option View
  relationshipLevel : Option String
deriving DecidableEq, Repr

/-- Lines 120-122: `viewerProfileId ? (viewerProfileId.toString() ===
profile._id.toString() ? 'owner' : 'viewer') : 'anonymous'`. -/
def viewerKind (profile : Profile) (viewerProfileId : Option String) :
    Except JsError String :=
  if jsTruthy viewerProfileId then do
    let viewer ← jsToString viewerProfileId
    if viewer = profile._id then Except.ok "owner" else Except.ok "viewer"
  else Except.ok "anonymous"

/-- Lines 100-133: `getProfileById`, from the collection, `req.user.profileId`
and `req.params.id` to the response.  The validator of lines 7-12 is the one of
`friendController.js`. -/
def getProfileById (db : Db) (viewerProfileId : Option String) (profileId : String) :
    ProfileResponse :=
  if !isValidObjectId (some profileId) then
    { status := 400, message := some "Invalid profile ID format", profile := none,
      relationshipLevel := none }
  else
    match findById db profileId with
    | none =>
      { status := 404, message := some "Profile not found", profile := none,
        relationshipLevel := none }
    | some profile =>
      match getVisibleFields profile viewerProfileId, viewerKind profile viewerProfileId with
      | Except.ok visibleProfile, Except.ok relationshipLevel =>
        { status := 200, message := none, profile := some visibleProfile,
          relationshipLevel := some relationshipLevel }
      | _, _ =>
        { status := 500, message := some "Server error", profile := none,
          relationshipLevel := none }

/-! ## Names and sample documents used in the statements -/

/-- The field names that lines 91-111 of `filterProfileFields` can copy. -/
def whitelist : List String :=
  ["username", "name", "bio", "avatar", "interests", "isAnonymous", "createdAt"]

/-- Id of the sample profile `alice`. -/
def aliceId : String := "64b7f0c2a1d3e4f5a6b7c8d1"

/-- Id of the sample profile `bob`. -/
def bobId : String := "64b7f0c2a1d3e4f5a6b7c8d2"

/-- Id of a third profile. -/
def carolId : String := "64b7f0c2a1d3e4f5a6b7c8d3"

/-- Id of a profile that no sample document has an entry for, except where
stated. -/
def erinId : String := "64b7f0c2a1d3e4f5a6b7c8d5"

/-- A profile with the default policy
`public:[username,avatar], follower:[bio], closeFriend:[interests]` and no
entries in `friends`. -/
def alice : Profile :=
  { _id := aliceId, userId := "64b7f0c2a1d3e4f5a6b7c801", name := some "Alice A",
    username := some "alice", bio := some "tea and trains", avatar := some "alice.png",
    interests := some ["chess"], isAnonymous := some false, createdAt := some 1700000000000,
    visibility := some defaultVisibility, friends := some [] }

/-- A second profile with the default policy and no entries in `friends`. -/
def bob : Profile :=
  { _id := bobId, userId := "64b7f0c2a1d3e4f5a6b7c802", name := some "Bob B",
    username := some "bob", bio := some "climber", avatar := some "bob.png",
    interests := some ["go"], isAnonymous := some false, createdAt := some 1700000000001,
    visibility := some defaultVisibility, friends := some [] }

/-- The collection holding `alice` and `bob`. -/
def db0 : Db := [alice, bob]

/-- The profile `alice` with a follower entry for `bob`, a close entry for
`carol` and a blocked entry for `erin`. -/
def aliceWithEdges : Profile :=
  { alice with friends := some [{ profileId := some bobId, level := some "follower" },
                                { profileId := some carolId, level := some "close" },
                                { profileId := some erinId, level := some "blocked" }] }

/-- A profile whose policy has no `public` sub-object, with a follower entry
for `bob` and a close entry for `carol`. -/
def dana : Profile :=
  { _id := "64b7f0c2a1d3e4f5a6b7c8d4", userId := "64b7f0c2a1d3e4f5a6b7c804",
    name := some "Dana D", username := some "dana", bio := some "night owl",
    avatar := some "dana.png", interests := some ["jazz"], isAnonymous := some false,
    createdAt := some 1700000000003,
    visibility := some { public := none, follower := some { fields := some ["bio"] },
                         closeFriend := some { fields := some ["interests"] } },
    friends := some [{ profileId := some bobId, level := some "follower" },
                     { profileId := some carolId, level := some "close" }] }

/-- A profile whose policy lists names outside the whitelist. -/
def leaky : Profile :=
  { bob with
    visibility := some
      { public := some { fields := some ["username", "friends", "visibility", "userId"] },
        follower := some { fields := some ["bio", "password"] },
        closeFriend := none },
    friends := some [{ profileId := some aliceId, level := some "follower" }] }

/-- The profile `alice` without a `visibility` object and without `friends`. -/
def bare : Profile := { alice with visibility := none, friends := none }

/-- The profile `bob` with a policy that has no `public` sub-object. -/
def noPublicTier : Profile :=
  { bob with visibility := some { public := none,
                                  follower := some { fields := some ["bio"] },
                                  closeFriend := some { fields := some ["interests"] } } }

/-- The profile `bob` with a `public` sub-object that has no `fields` list. -/
def noPublicList : Profile :=
  { bob with visibility := some { public := some { fields := none },
                                  follower := some { fields := some ["bio"] },
                                  closeFriend := some { fields := some ["interests"] } } }

/-- The profile `alice` with an entry for its own id, two entries for `bob`
and an entry without a level for `carol`. -/
def selfEdged : Profile :=
  { alice with friends := some [{ profileId := some aliceId, level := some "blocked" },
                                { profileId := some bobId, level := some "close" },
                                { profileId := some bobId, level := some "follower" },
                                { profileId := some carolId, level := none }] }

/-- The edge list stored for the profile with the given id. -/
def friendsOf (db : Db) (id : String) : Option (List Friend) :=
  (findById db id).bind (fun p => p.friends)

/-- The id of `alice` written with upper-case hexadecimal digits. -/
def upperAliceId : String := "64B7F0C2A1D3E4F5A6B7C8D1"

/-- A third profile with the default policy and no entries in `friends`. -/
def carol : Profile :=
  { _id := carolId, userId := "64b7f0c2a1d3e4f5a6b7c803", name := some "Carol C",
    username := some "carol", bio := some "baker", avatar := some "carol.png",
    interests := some ["bread"], isAnonymous := some false, createdAt := some 1700000000002,
    visibility := some defaultVisibility, friends := some [] }

/-- The profile `bob` with a follower entry for `alice` followed by a follower
entry for `carol`. -/
def bobFollowing : Profile :=
  { bob with friends := some [{ profileId := some aliceId, level := some "follower" },
                              { profileId := some carolId, level := some "follower" }] }

/-- The collection holding `alice`, `bobFollowing` and `carol`. -/
def db1 : Db := [alice, bobFollowing, carol]

/-- The profile `alice` with its public list written in the other order. -/
def aliceReordered : Profile :=
  { alice with
    visibility := some { public := some { fields := some ["avatar", "username"] },
                         follower := some { fields := some ["bio"] },
                         closeFriend := some { fields := some ["interests"] } } }

/-- The collection holding `aliceWithEdges` and `bob`. -/
def db3 : Db := [aliceWithEdges, bob]

/-- The profile `aliceWithEdges` with other values in the fields that its public
list does not name, and another owner. -/
def aliceRewritten : Profile :=
  { aliceWithEdges with
    userId := "64b7f0c2a1d3e4f5a6b7c899", name := some "A.", bio := some "moved away",
    interests := some ["sailing", "maps"], isAnonymous := some true,
    createdAt := some 1800000000000 }

/-- The document `aliceWithEdges` with the number 5 stored under
`visibility.public.fields`. -/
def brokenPublicList : RawProfile :=
  { doc := aliceWithEdges,
    visibility := some
      { public := some { fields := RawFields.scalar },
        follower := some { fields := RawFields.strings ["bio"] },
        closeFriend := some { fields := RawFields.strings ["interests"] } } }

/-- The document `aliceWithEdges` with the number 5 stored under
`visibility.follower.fields`. -/
def brokenFollowerList : RawProfile :=
  { doc := aliceWithEdges,
    visibility := some
      { public := some { fields := RawFields.strings ["username", "avatar"] },
        follower := some { fields := RawFields.scalar },
        closeFriend := some { fields := RawFields.strings ["interests"] } } }

/-! ## Lemmas on the primitives -/

theorem mem_jsSetSpread (l : List String) (y : String) :
    y ∈ jsSetSpread l ↔ y ∈ l := by
  induction l with
  | nil => simp [jsSetSpread]
  | cons x xs ih =>
    simp only [jsSetSpread, List.mem_cons, List.mem_filter, ih]
    by_cases h : y = x
    · simp [h]
    · simp [h]

theorem contains_jsSetSpread (l : List String) (k : String) :
    (jsSetSpread l).contains k = l.contains k := by
  simp only [List.contains, List.elem_eq_mem, mem_jsSetSpread]

theorem filterProfileFields_congr (profile : Profile) (l₁ l₂ : List String)
    (h : ∀ k, l₁.contains k = l₂.contains k) :
    filterProfileFields profile l₁ = filterProfileFields profile l₂ := by
  simp only [filterProfileFields, h]

theorem filterProfileFields_jsSetSpread (profile : Profile) (l : List String) :
    filterProfileFields profile (jsSetSpread l) = filterProfileFields profile l :=
  filterProfileFields_congr profile _ _ (contains_jsSetSpread l)

theorem mem_keys_filterProfileFields (profile : Profile) (l : List String) (k : String) :
    k ∈ (filterProfileFields profile l).keys ↔ k = "_id" ∨ (k ∈ l ∧ k ∈ whitelist) := by
  simp only [filterProfileFields, View.keys, whitelist, List.map_append, List.mem_append,
    List.contains, List.elem_eq_mem, decide_eq_true_eq, apply_ite (List.map Prod.fst),
    List.map_cons, List.map_nil, List.mem_cons, List.mem_singleton, List.mem_ite_nil_right,
    List.not_mem_nil, or_false]
  constructor
  · rintro (((((((h | h) | h) | h) | h) | h) | h) | h)
    · exact Or.inl h
    all_goals (obtain ⟨h1, h2⟩ := h; subst h2; simp [h1])
  · rintro (h | ⟨h1, h2⟩)
    · simp [h]
    · rcases h2 with h | h | h | h | h | h | h <;> subst h <;> simp [h1]

theorem prop_of_mem_filterProfileFields (profile : Profile) (l : List String)
    (k : String) (val : JsVal) (h : (k, val) ∈ filterProfileFields profile l) :
    val = profile.prop k := by
  simp only [filterProfileFields, List.mem_append, List.mem_singleton, List.mem_ite_nil_right,
    Prod.mk.injEq] at h
  rcases h with ((((((h | h) | h) | h) | h) | h) | h) | h
  · obtain ⟨h1, h2⟩ := h
    subst h1 h2
    simp [Profile.prop]
  all_goals
    obtain ⟨_, h1, h2⟩ := h
    subst h1 h2
    simp [Profile.prop]

theorem publicFields_eq_none_iff (P : Profile) :
    P.publicFields = none ↔
      (P.visibility = none
        ∨ (∃ vis, P.visibility = some vis ∧ vis.public = none)
        ∨ (∃ vis tier, P.visibility = some vis ∧ vis.public = some tier
            ∧ tier.fields = none)) := by
  unfold Profile.publicFields
  cases hv : P.visibility with
  | none => simp
  | some vis =>
    cases hp : vis.public with
    | none => simp [hp]
    | some tier => simp [hp]

theorem find_profileId_of_first (v : String) (before after : List Friend) (e : Friend)
    (he : e.profileId = some v) (hbefore : ∀ x, x ∈ before → x.profileId ≠ some v) :
    (before ++ e :: after).find? (fun friend => decide (friend.profileId = some v))
      = some e := by
  induction before with
  | nil => simp [he]
  | cons b bs ih =>
    have hb : b.profileId ≠ some v := hbefore b (List.mem_cons_self _ _)
    simp only [List.cons_append, List.find?_cons, hb, decide_False]
    exact ih (fun x hx => hbefore x (List.mem_cons_of_mem _ hx))

theorem findRelationship_of_first (P : Profile) (v : String) (fs before after : List Friend)
    (e : Friend) (hfs : P.friends = some fs) (hsplit : fs = before ++ e :: after)
    (he : e.profileId = some v) (hbefore : ∀ x, x ∈ before → x.profileId ≠ some v) :
    findRelationship P v = some e := by
  subst hsplit
  simp only [findRelationship, hfs, Option.some_bind]
  exact find_profileId_of_first v before after e he hbefore

theorem findRelationship_of_absent (P : Profile) (v : String)
    (h : ∀ fs, P.friends = some fs → ∀ x, x ∈ fs → x.profileId ≠ some v) :
    findRelationship P v = none := by
  unfold findRelationship
  cases hf : P.friends with
  | none => rfl
  | some fs =>
    simp only [Option.some_bind, List.find?_eq_none, decide_eq_true_eq]
    exact h fs hf

/-! ## The three paths of `getVisibleFields` -/

theorem getVisibleFields_of_falsy (P : Profile) (viewer : Option String)
    (h : jsTruthy viewer = false) :
    getVisibleFields P viewer
      = Except.ok (filterProfileFields P (P.publicFields.getD defaultPublicFields)) := by
  simp [getVisibleFields, getVisibleFieldsTry, h]

theorem getVisibleFields_of_owner (P : Profile) (h : P._id ≠ "") :
    getVisibleFields P (some P._id) = Except.ok (ownerView P) := by
  simp [getVisibleFields, getVisibleFieldsTry, jsTruthy, jsToString, h, bind, Except.bind]

theorem getVisibleFields_of_other (P : Profile) (v : String) (hv : v ≠ "")
    (hne : v ≠ P._id) :
    getVisibleFields P (some v)
      = Except.ok (filterProfileFields P (allowedFieldsFor P (findRelationship P v))) := by
  simp [getVisibleFields, getVisibleFieldsTry, jsTruthy, jsToString, hv, hne, bind,
    Except.bind, filterProfileFields_jsSetSpread]

/-- Monotonicity of the three non-owner views for a profile that has a public
field list: the keys shown without an entry are among those shown to a
follower, which are among those shown to a close friend. -/
theorem keys_monotone_of_public_list (P : Profile) (pub : List String)
    (hpub : P.publicFields = some pub) (vp vf vc : String)
    (hp : vp ≠ "" ∧ vp ≠ P._id) (hf : vf ≠ "" ∧ vf ≠ P._id) (hc : vc ≠ "" ∧ vc ≠ P._id)
    (ep : findRelationship P vp = none)
    (ef : (findRelationship P vf).bind (fun r => r.level) = some "follower")
    (ec : (findRelationship P vc).bind (fun r => r.level) = some "close") :
    ∃ wp wf wc, getVisibleFields P (some vp) = Except.ok wp
      ∧ getVisibleFields P (some vf) = Except.ok wf
      ∧ getVisibleFields P (some vc) = Except.ok wc
      ∧ wp.keys ⊆ wf.keys ∧ wf.keys ⊆ wc.keys := by
  refine ⟨_, _, _, getVisibleFields_of_other P vp hp.1 hp.2,
    getVisibleFields_of_other P vf hf.1 hf.2, getVisibleFields_of_other P vc hc.1 hc.2, ?_, ?_⟩
  · intro k hk
    rw [mem_keys_filterProfileFields] at hk ⊢
    rcases hk with hk | ⟨hk, hw⟩
    · exact Or.inl hk
    · refine Or.inr ⟨?_, hw⟩
      simp only [allowedFieldsFor, ep, ef, hpub] at hk ⊢
      simp at hk ⊢
      exact Or.inl hk
  · intro k hk
    rw [mem_keys_filterProfileFields] at hk ⊢
    rcases hk with hk | ⟨hk, hw⟩
    · exact Or.inl hk
    · refine Or.inr ⟨?_, hw⟩
      simp only [allowedFieldsFor, ef, ec, hpub] at hk ⊢
      simp at hk ⊢
      rcases hk with hk | hk
      · exact Or.inl hk
      · exact Or.inr (Or.inl hk)

/-! ## Claims -/

/-- C1, evaluated where monotonicity fails: `dana` has no `public` sub-object,
`erin` has no entry, `bob` is a follower and `carol` is close.  The viewer
without an entry is shown `_id, username, avatar` (the fallback of line 60),
the follower only `_id, bio` and the close friend only `_id, bio, interests`
(lines 48 and 55 use the empty list), so the public keys are not among the
follower keys. -/
theorem monotonicity_fails_without_public_list :
    findRelationship dana erinId = none
    ∧ (findRelationship dana bobId).bind (fun r => r.level) = some "follower"
    ∧ (findRelationship dana carolId).bind (fun r => r.level) = some "close"
    ∧ (getVisibleFields dana (some erinId)).map View.keys
        = Except.ok ["_id", "username", "avatar"]
    ∧ (getVisibleFields dana (some bobId)).map View.keys = Except.ok ["_id", "bio"]
    ∧ (getVisibleFields dana (some carolId)).map View.keys
        = Except.ok ["_id", "bio", "interests"] := by
  decide

/-- C2, evaluated on the collection of `alice` and `bob`, both with the default
policy and no entries: `followProfile` with viewer `bob` and target `alice`
answers 200 with relationship `follower`, yet `getRelationshipLevel(alice, bob)`
stays `public` and `bob` is shown `_id, username, avatar` of `alice`; the same
after `addCloseFriend`.  The entry is written to the record of `bob`, where it
gives `alice` the tier `close` on `bob`. -/
theorem follow_leaves_followers_tier_public :
    (followProfile db0 (some bobId) aliceId).1.status = 200
    ∧ (followProfile db0 (some bobId) aliceId).1.relationship = some "follower"
    ∧ (findById (followProfile db0 (some bobId) aliceId).2 aliceId).map
        (fun a => getRelationshipLevel a (some bobId)) = some (Except.ok "public")
    ∧ (findById (followProfile db0 (some bobId) aliceId).2 aliceId).map
        (fun a => (getVisibleFields a (some bobId)).map View.keys)
        = some (Except.ok ["_id", "username", "avatar"])
    ∧ (addCloseFriend (followProfile db0 (some bobId) aliceId).2 (some bobId) aliceId).1.status
        = 200
    ∧ (findById (addCloseFriend (followProfile db0 (some bobId) aliceId).2
          (some bobId) aliceId).2 aliceId).map
        (fun a => getRelationshipLevel a (some bobId)) = some (Except.ok "public")
    ∧ (findById (addCloseFriend (followProfile db0 (some bobId) aliceId).2
          (some bobId) aliceId).2 aliceId).map
        (fun a => (getVisibleFields a (some bobId)).map View.keys)
        = some (Except.ok ["_id", "username", "avatar"])
    ∧ (findById (addCloseFriend (followProfile db0 (some bobId) aliceId).2
          (some bobId) aliceId).2 bobId).map
        (fun b => getRelationshipLevel b (some aliceId)) = some (Except.ok "close") := by
  decide

/-- C3: let `pub`, `fol` and `cls` be the lists stored under
`visibility.public.fields`, `visibility.follower.fields` and
`visibility.closeFriend.fields`, a missing list counting as empty.  For a
viewer `v` that is not the owner and whose entry in `P.friends` (the one `find`
returns) has level `follower`, `getVisibleFields` returns the projection onto
the deduplicated `pub ++ fol`, whose members are exactly the names in `pub` or
`fol`, so the keys of the view are `_id` and the whitelisted names of `pub` or
`fol`; with level `close` the same holds for `pub ++ fol ++ cls`. -/
theorem cumulative_tier_inclusion (P : Profile) (v : String) (e : Friend)
    (pub fol cls : List String)
    (hv : v ≠ "") (hne : v ≠ P._id) (he : findRelationship P v = some e)
    (hpub : pub
      = ((P.visibility.bind (fun x => x.public)).bind (fun t => t.fields)).getD [])
    (hfol : fol
      = ((P.visibility.bind (fun x => x.follower)).bind (fun t => t.fields)).getD [])
    (hcls : cls
      = ((P.visibility.bind (fun x => x.closeFriend)).bind (fun t => t.fields)).getD []) :
    (e.level = some "follower" →
      ∃ view, getVisibleFields P (some v) = Except.ok view
        ∧ view = filterProfileFields P (jsSetSpread (pub ++ fol))
        ∧ (∀ k, k ∈ jsSetSpread (pub ++ fol) ↔ k ∈ pub ∨ k ∈ fol)
        ∧ (∀ k, k ∈ view.keys ↔ k = "_id" ∨ ((k ∈ pub ∨ k ∈ fol) ∧ k ∈ whitelist)))
    ∧ (e.level = some "close" →
      ∃ view, getVisibleFields P (some v) = Except.ok view
        ∧ view = filterProfileFields P (jsSetSpread (pub ++ fol ++ cls))
        ∧ (∀ k, k ∈ jsSetSpread (pub ++ fol ++ cls) ↔ k ∈ pub ∨ k ∈ fol ∨ k ∈ cls)
        ∧ (∀ k, k ∈ view.keys
            ↔ k = "_id" ∨ ((k ∈ pub ∨ k ∈ fol ∨ k ∈ cls) ∧ k ∈ whitelist))) := by
  have hpub' : P.publicFields.getD [] = pub := by rw [hpub]; rfl
  have hfol' : P.followerFields.getD [] = fol := by rw [hfol]; rfl
  have hcls' : P.closeFriendFields.getD [] = cls := by rw [hcls]; rfl
  constructor
  · intro hl
    have hallowed : allowedFieldsFor P (findRelationship P v) = pub ++ fol := by
      simp [allowedFieldsFor, he, hl, hpub', hfol']
    refine ⟨_, getVisibleFields_of_other P v hv hne, ?_, fun k => by simp [mem_jsSetSpread],
      ?_⟩
    · rw [hallowed, filterProfileFields_jsSetSpread]
    · intro k
      rw [mem_keys_filterProfileFields, hallowed, List.mem_append]
  · intro hl
    have hallowed : allowedFieldsFor P (findRelationship P v) = pub ++ fol ++ cls := by
      simp [allowedFieldsFor, he, hl, hpub', hfol', hcls']
    refine ⟨_, getVisibleFields_of_other P v hv hne, ?_,
      fun k => by simp [mem_jsSetSpread, or_assoc], ?_⟩
    · rw [hallowed, filterProfileFields_jsSetSpread]
    · intro k
      rw [mem_keys_filterProfileFields, hallowed, List.mem_append, List.mem_append, or_assoc]

/-- Witness of C3 on `aliceWithEdges`, whose policy is
`public:[username,avatar], follower:[bio], closeFriend:[interests]`: the
follower `bob` receives the keys `_id, username, bio, avatar` and no
`interests`; the close friend `carol` receives `interests` as well. -/
theorem cumulative_tier_inclusion_witness :
    (getVisibleFields aliceWithEdges (some bobId)).map View.keys
        = Except.ok ["_id", "username", "bio", "avatar"]
    ∧ (getVisibleFields aliceWithEdges (some carolId)).map View.keys
        = Except.ok ["_id", "username", "bio", "avatar", "interests"] := by
  obtain ⟨view₁, h₁, hview₁, _, _⟩ :=
    (cumulative_tier_inclusion aliceWithEdges bobId
      { profileId := some bobId, level := some "follower" }
      ["username", "avatar"] ["bio"] ["interests"]
      (by decide) (by decide) (by decide) (by decide) (by decide) (by decide)).1 rfl
  obtain ⟨view₂, h₂, hview₂, _, _⟩ :=
    (cumulative_tier_inclusion aliceWithEdges carolId
      { profileId := some carolId, level := some "close" }
      ["username", "avatar"] ["bio"] ["interests"]
      (by decide) (by decide) (by decide) (by decide) (by decide) (by decide)).2 rfl
  constructor
  · rw [h₁, hview₁]
    decide
  · rw [h₂, hview₂]
    decide

/-- C4: the keys of `filterProfileFields profile allowedFields` are exactly
`_id` and the whitelisted names that occur in `allowedFields`, every value is
the profile's value of that property, and so every viewer other than the owner
receives `_id`, only whitelisted keys with the profile's values, and never
`friends`, `visibility` or `userId`, whatever the policy lists. -/
theorem filterProfileFields_exact (profile : Profile) (allowedFields : List String) :
    (∀ k, k ∈ (filterProfileFields profile allowedFields).keys
        ↔ k = "_id" ∨ (k ∈ allowedFields ∧ k ∈ whitelist))
    ∧ (∀ k val, (k, val) ∈ filterProfileFields profile allowedFields → val = profile.prop k)
    ∧ (∀ viewer : Option String, viewer ≠ some profile._id →
        ∃ view, getVisibleFields profile viewer = Except.ok view
          ∧ "_id" ∈ view.keys
          ∧ (∀ k, k ∈ view.keys → k = "_id" ∨ k ∈ whitelist)
          ∧ (∀ k val, (k, val) ∈ view → val = profile.prop k)
          ∧ "friends" ∉ view.keys ∧ "visibility" ∉ view.keys ∧ "userId" ∉ view.keys) := by
  refine ⟨mem_keys_filterProfileFields profile allowedFields,
    prop_of_mem_filterProfileFields profile allowedFields, ?_⟩
  intro viewer hne
  have key : ∀ l, "_id" ∈ (filterProfileFields profile l).keys
      ∧ (∀ k, k ∈ (filterProfileFields profile l).keys → k = "_id" ∨ k ∈ whitelist)
      ∧ (∀ k val, (k, val) ∈ filterProfileFields profile l → val = profile.prop k)
      ∧ "friends" ∉ (filterProfileFields profile l).keys
      ∧ "visibility" ∉ (filterProfileFields profile l).keys
      ∧ "userId" ∉ (filterProfileFields profile l).keys := by
    intro l
    refine ⟨(mem_keys_filterProfileFields profile l "_id").2 (Or.inl rfl), ?_,
      prop_of_mem_filterProfileFields profile l, ?_, ?_, ?_⟩
    · intro k hk
      rcases (mem_keys_filterProfileFields profile l k).1 hk with h | h
      · exact Or.inl h
      · exact Or.inr h.2
    all_goals
      intro hk
      rcases (mem_keys_filterProfileFields profile l _).1 hk with h | h
      · exact absurd h (by decide)
      · exact absurd h.2 (by decide)
  by_cases ht : jsTruthy viewer = false
  · exact ⟨_, getVisibleFields_of_falsy profile viewer ht, key _⟩
  · cases viewer with
    | none => simp [jsTruthy] at ht
    | some v =>
      have hv : v ≠ "" := by simpa [jsTruthy] using ht
      have hid : v ≠ profile._id := fun h => hne (by rw [h])
      exact ⟨_, getVisibleFields_of_other profile v hv hid, key _⟩

/-- Witness of C4: `alice`, a follower of `leaky`, whose policy lists
`friends`, `visibility`, `userId` and `password`. -/
theorem filterProfileFields_exact_witness :
    some aliceId ≠ some leaky._id
    ∧ ∃ view, getVisibleFields leaky (some aliceId) = Except.ok view
        ∧ "_id" ∈ view.keys
        ∧ (∀ k, k ∈ view.keys → k = "_id" ∨ k ∈ whitelist)
        ∧ (∀ k val, (k, val) ∈ view → val = leaky.prop k)
        ∧ "friends" ∉ view.keys ∧ "visibility" ∉ view.keys ∧ "userId" ∉ view.keys :=
  ⟨by decide, (filterProfileFields_exact leaky []).2.2 (some aliceId) (by decide)⟩

/-- C5, counterexample: `bare` has no `visibility` object, and both the
anonymous viewer and `bob`, who has no entry, are shown `_id, username, avatar`
rather than `_id` alone. -/
theorem missing_policy_view_not_only_id :
    bare.visibility = none
    ∧ (getVisibleFields bare none).map View.keys = Except.ok ["_id", "username", "avatar"]
    ∧ (getVisibleFields bare (some bobId)).map View.keys
        = Except.ok ["_id", "username", "avatar"]
    ∧ (getVisibleFields bare none).map View.keys ≠ Except.ok ["_id"] := by
  decide

/-- C5, amended: when the `visibility` object, its `public` sub-object or the
`fields` list of that sub-object is missing, an anonymous viewer and a viewer
without an entry are given the fallback list `['username', 'avatar']`: the view
is returned without error and holds exactly `_id`, `username` and `avatar`. -/
theorem missing_public_list_defaults (P : Profile) (viewer : Option String)
    (hmiss : P.visibility = none
        ∨ (∃ vis, P.visibility = some vis ∧ vis.public = none)
        ∨ (∃ vis tier, P.visibility = some vis ∧ vis.public = some tier
            ∧ tier.fields = none))
    (hview : jsTruthy viewer = false
        ∨ (∃ v, viewer = some v ∧ v ≠ P._id ∧ findRelationship P v = none)) :
    getVisibleFields P viewer
      = Except.ok [("_id", JsVal.str P._id), ("username", JsVal.ofStr P.username),
          ("avatar", JsVal.ofStr P.avatar)] := by
  have hpub : P.publicFields = none := (publicFields_eq_none_iff P).2 hmiss
  have hfilter : filterProfileFields P (P.publicFields.getD defaultPublicFields)
      = [("_id", JsVal.str P._id), ("username", JsVal.ofStr P.username),
          ("avatar", JsVal.ofStr P.avatar)] := by
    rw [hpub]
    simp [filterProfileFields, defaultPublicFields]
  by_cases ht : jsTruthy viewer = false
  · rw [getVisibleFields_of_falsy P viewer ht, hfilter]
  · rcases hview with h | ⟨v, rfl, hne, hrel⟩
    · exact absurd h ht
    · have hv : v ≠ "" := by simpa [jsTruthy] using ht
      rw [getVisibleFields_of_other P v hv hne, ← hfilter]
      simp [allowedFieldsFor, hrel]

/-- Witness of the amended C5: `noPublicTier`, whose policy lacks the `public`
sub-object, viewed by `alice`, who has no entry. -/
theorem missing_public_list_defaults_witness :
    getVisibleFields noPublicTier (some aliceId)
      = Except.ok [("_id", JsVal.str noPublicTier._id),
          ("username", JsVal.ofStr noPublicTier.username),
          ("avatar", JsVal.ofStr noPublicTier.avatar)] :=
  missing_public_list_defaults noPublicTier (some aliceId)
    (Or.inr (Or.inl ⟨_, rfl, rfl⟩))
    (Or.inr ⟨aliceId, rfl, by decide, by decide⟩)

/-- On a document whose present field lists are arrays of strings,
`getVisibleFields` returns a view, never an exception, and the view carries the
`_id` of the profile; the profile may lack its `visibility` object, any tier or
field list, its `friends` array, and any `profileId` or `level` of an entry. -/
theorem getVisibleFields_total (targetProfile : Profile) (viewerProfileId : Option String) :
    ∃ view, getVisibleFields targetProfile viewerProfileId = Except.ok view
      ∧ ("_id", JsVal.str targetProfile._id) ∈ view := by
  unfold getVisibleFields
  cases h : getVisibleFieldsTry targetProfile viewerProfileId with
  | error err => exact ⟨_, rfl, by simp [filterProfileFields]⟩
  | ok view =>
    refine ⟨view, rfl, ?_⟩
    unfold getVisibleFieldsTry at h
    by_cases ht : jsTruthy viewerProfileId = true
    · cases viewerProfileId with
      | none => simp [jsTruthy] at ht
      | some v =>
        simp only [ht, jsToString, bind, Except.bind] at h
        by_cases hid : v = targetProfile._id
        · simp [hid, ownerView] at h
          subst h
          simp
        · simp [hid] at h
          subst h
          simp [filterProfileFields]
    · simp [ht] at h
      subst h
      simp [filterProfileFields]

/-- C7: the owner's view holds the nine keys `_id`, `username`, `name`, `bio`,
`avatar`, `interests`, `isAnonymous`, `createdAt` and `visibility`, each with
the profile's own value, whatever the policy and the `friends` list. -/
theorem owner_sees_all (P : Profile) (hid : P._id ≠ "") :
    ∃ view, getVisibleFields P (some P._id) = Except.ok view
      ∧ view.keys = ["_id", "username", "name", "bio", "avatar", "interests",
          "isAnonymous", "createdAt", "visibility"]
      ∧ (∀ k, k ∈ view.keys → (k, P.prop k) ∈ view)
      ∧ (∀ k val, (k, val) ∈ view → val = P.prop k) := by
  refine ⟨ownerView P, getVisibleFields_of_owner P hid, rfl, ?_, ?_⟩
  · intro k hk
    simp only [ownerView, View.keys, List.map_cons, List.map_nil, List.mem_cons,
      List.mem_singleton, List.not_mem_nil, or_false] at hk
    rcases hk with h | h | h | h | h | h | h | h | h <;> subst h <;>
      simp [ownerView, Profile.prop]
  · intro k val hk
    simp only [ownerView, List.mem_cons, List.mem_singleton, List.not_mem_nil, or_false,
      Prod.mk.injEq] at hk
    rcases hk with h | h | h | h | h | h | h | h | h <;> obtain ⟨h1, h2⟩ := h <;>
      subst h1 h2 <;> simp [Profile.prop]

/-- Witness of C7: `selfEdged`, whose `friends` even holds a blocked entry for
its own id. -/
theorem owner_sees_all_witness :
    selfEdged._id ≠ ""
    ∧ ∃ view, getVisibleFields selfEdged (some selfEdged._id) = Except.ok view
      ∧ view.keys = ["_id", "username", "name", "bio", "avatar", "interests",
          "isAnonymous", "createdAt", "visibility"]
      ∧ (∀ k, k ∈ view.keys → (k, selfEdged.prop k) ∈ view)
      ∧ (∀ k val, (k, val) ∈ view → val = selfEdged.prop k) :=
  ⟨by decide, owner_sees_all selfEdged (by decide)⟩

/-- C8, counterexample: the `public` sub-object of `noPublicList` has no
`fields`, and the anonymous view still holds `username` and `avatar`, names
that its public list does not contain. -/
theorem anonymous_view_exceeds_public_list :
    noPublicList.publicFields = none
    ∧ (getVisibleFields noPublicList none).map View.keys
        = Except.ok ["_id", "username", "avatar"]
    ∧ "username" ∉ noPublicList.publicFields.getD []
    ∧ "avatar" ∉ noPublicList.publicFields.getD [] := by
  decide

/-- C8, amended: the anonymous view always holds `_id`; when the profile has a
public field list its other keys all come from that list, and when the list is
missing its other keys are among `username` and `avatar`. -/
theorem anonymous_minimal (P : Profile) :
    ∃ view, getVisibleFields P none = Except.ok view
      ∧ "_id" ∈ view.keys
      ∧ (∀ fields, P.publicFields = some fields →
          ∀ k, k ∈ view.keys → k = "_id" ∨ k ∈ fields)
      ∧ (P.publicFields = none →
          ∀ k, k ∈ view.keys → k = "_id" ∨ k = "username" ∨ k = "avatar") := by
  refine ⟨_, getVisibleFields_of_falsy P none rfl,
    (mem_keys_filterProfileFields P _ "_id").2 (Or.inl rfl), ?_, ?_⟩
  · intro fields hf k hk
    rw [hf] at hk
    rcases (mem_keys_filterProfileFields P _ k).1 hk with h | h
    · exact Or.inl h
    · exact Or.inr (by simpa using h.1)
  · intro hf k hk
    rw [hf] at hk
    rcases (mem_keys_filterProfileFields P _ k).1 hk with h | h
    · exact Or.inl h
    · exact Or.inr (by simpa [defaultPublicFields] using h.1)

/-- Witness of the amended C8: `aliceWithEdges` has the public list
`[username, avatar]`, and `bare` has none. -/
theorem anonymous_minimal_witness :
    (∃ view, getVisibleFields aliceWithEdges none = Except.ok view
      ∧ ∀ k, k ∈ view.keys → k = "_id" ∨ k ∈ ["username", "avatar"])
    ∧ (∃ view, getVisibleFields bare none = Except.ok view
      ∧ ∀ k, k ∈ view.keys → k = "_id" ∨ k = "username" ∨ k = "avatar") :=
  ⟨match anonymous_minimal aliceWithEdges with
    | ⟨view, h, _, hsome, _⟩ => ⟨view, h, hsome ["username", "avatar"] (by decide)⟩,
   match anonymous_minimal bare with
    | ⟨view, h, _, _, hnone⟩ => ⟨view, h, hnone (by decide)⟩⟩

/-- C9: `getRelationshipLevel` answers `public` for a missing (or empty) viewer
id, `owner` when the viewer id is the profile's `_id` whatever `friends` holds,
the level of the first entry of `friends` whose `profileId` is the viewer id,
and `public` when `friends` has no such entry. -/
theorem getRelationshipLevel_resolves (P : Profile) :
    (∀ viewer, jsTruthy viewer = false → getRelationshipLevel P viewer = Except.ok "public")
    ∧ (P._id ≠ "" → getRelationshipLevel P (some P._id) = Except.ok "owner")
    ∧ (∀ (v : String) (fs before after : List Friend) (e : Friend) (level : String),
        v ≠ "" → v ≠ P._id → P.friends = some fs → fs = before ++ e :: after →
        e.profileId = some v → (∀ x, x ∈ before → x.profileId ≠ some v) →
        e.level = some level → level ≠ "" →
        getRelationshipLevel P (some v) = Except.ok level)
    ∧ (∀ v : String, v ≠ "" → v ≠ P._id →
        (∀ fs, P.friends = some fs → ∀ x, x ∈ fs → x.profileId ≠ some v) →
        getRelationshipLevel P (some v) = Except.ok "public") := by
  refine ⟨?_, ?_, ?_, ?_⟩
  · intro viewer h
    simp [getRelationshipLevel, h]
  · intro hid
    simp [getRelationshipLevel, jsTruthy, jsToString, hid, bind, Except.bind]
  · intro v fs before after e level hv hne hfs hsplit he hbefore hl hlne
    have hrel := findRelationship_of_first P v fs before after e hfs hsplit he hbefore
    simp [getRelationshipLevel, jsTruthy, jsToString, hv, hne, bind, Except.bind, hrel, hl,
      jsOrString, hlne]
  · intro v hv hne habs
    have hrel := findRelationship_of_absent P v habs
    simp [getRelationshipLevel, jsTruthy, jsToString, hv, hne, bind, Except.bind, hrel,
      jsOrString]

/-- Witness of C9 on `selfEdged`: the owner, `bob` (two entries, the first one
close) and `erin` (no entry). -/
theorem getRelationshipLevel_resolves_witness :
    getRelationshipLevel selfEdged none = Except.ok "public"
    ∧ getRelationshipLevel selfEdged (some selfEdged._id) = Except.ok "owner"
    ∧ getRelationshipLevel selfEdged (some bobId) = Except.ok "close"
    ∧ getRelationshipLevel selfEdged (some erinId) = Except.ok "public" :=
  ⟨(getRelationshipLevel_resolves selfEdged).1 none rfl,
   (getRelationshipLevel_resolves selfEdged).2.1 (by decide),
   (getRelationshipLevel_resolves selfEdged).2.2.1 bobId _
      [{ profileId := some aliceId, level := some "blocked" }]
      [{ profileId := some bobId, level := some "follower" },
       { profileId := some carolId, level := none }]
      { profileId := some bobId, level := some "close" } "close"
      (by decide) (by decide) rfl rfl rfl (by decide) rfl (by decide),
   (getRelationshipLevel_resolves selfEdged).2.2.2 erinId (by decide) (by decide)
      (by intro fs hfs x hx
          have hfs2 : fs = [{ profileId := some aliceId, level := some "blocked" },
              { profileId := some bobId, level := some "close" },
              { profileId := some bobId, level := some "follower" },
              { profileId := some carolId, level := none }] := (Option.some.inj hfs).symm
          subst hfs2
          revert x
          decide)⟩

/-- C10: a viewer other than the owner whose entry in `friends` has a level
other than `close` and `follower` (`blocked`, any other string, or none)
receives exactly the view of the anonymous viewer, and no error is raised. -/
theorem blocked_or_unknown_tier_as_public (P : Profile) (v : String) (e : Friend)
    (hne : v ≠ P._id) (he : findRelationship P v = some e)
    (hclose : e.level ≠ some "close") (hfollower : e.level ≠ some "follower") :
    getVisibleFields P (some v) = getVisibleFields P none
    ∧ ∃ view, getVisibleFields P (some v) = Except.ok view := by
  have hanon := getVisibleFields_of_falsy P none rfl
  by_cases hv : v = ""
  · have h := getVisibleFields_of_falsy P (some v) (by simp [jsTruthy, hv])
    exact ⟨h.trans hanon.symm, _, h⟩
  · have h := getVisibleFields_of_other P v hv hne
    have hallowed : allowedFieldsFor P (findRelationship P v)
        = P.publicFields.getD defaultPublicFields := by
      simp [allowedFieldsFor, he, hclose, hfollower]
    rw [hallowed] at h
    exact ⟨h.trans hanon.symm, _, h⟩

/-- Witness of C10: `erin`, blocked by `aliceWithEdges`, and `carol`, whose
entry in `selfEdged` has no level. -/
theorem blocked_or_unknown_tier_as_public_witness :
    (getVisibleFields aliceWithEdges (some erinId) = getVisibleFields aliceWithEdges none
      ∧ ∃ view, getVisibleFields aliceWithEdges (some erinId) = Except.ok view)
    ∧ (getVisibleFields selfEdged (some carolId) = getVisibleFields selfEdged none
      ∧ ∃ view, getVisibleFields selfEdged (some carolId) = Except.ok view) :=
  ⟨blocked_or_unknown_tier_as_public aliceWithEdges erinId
      { profileId := some erinId, level := some "blocked" }
      (by decide) (by decide) (by decide) (by decide),
   blocked_or_unknown_tier_as_public selfEdged carolId
      { profileId := some carolId, level := none }
      (by decide) (by decide) (by decide) (by decide)⟩

/-! ## The relationship operations -/

theorem findFriendIndex_inv (fs : List Friend) (t : String) :
    ∀ r, findFriendIndex fs t = Except.ok r →
      (∀ i, r = some i → ∃ before e after, fs = before ++ e :: after ∧ i = before.length
          ∧ e.profileId = some t
          ∧ ∀ x, x ∈ before → x.profileId ≠ none ∧ x.profileId ≠ some t)
      ∧ (r = none → ∀ x, x ∈ fs → x.profileId ≠ none ∧ x.profileId ≠ some t) := by
  induction fs with
  | nil =>
    intro r h
    simp only [findFriendIndex, Except.ok.injEq] at h
    subst h
    simp
  | cons f rest ih =>
    intro r h
    cases hp : f.profileId with
    | none => simp [findFriendIndex, hp, jsToString, bind, Except.bind] at h
    | some s =>
      by_cases hs : s = t
      · simp only [findFriendIndex, hp, jsToString, bind, Except.bind, hs, if_true,
          Except.ok.injEq] at h
        subst h
        refine ⟨?_, by simp⟩
        intro i hi
        refine ⟨[], f, rest, rfl, ?_, by rw [hp, hs], by simp⟩
        simpa using hi.symm
      · cases hr : findFriendIndex rest t with
        | error err => simp [findFriendIndex, hp, jsToString, bind, Except.bind, hs, hr] at h
        | ok r' =>
          simp only [findFriendIndex, hp, jsToString, bind, Except.bind, hs, if_false, hr,
            Except.ok.injEq] at h
          subst h
          have hf : f.profileId ≠ none ∧ f.profileId ≠ some t := by
            rw [hp]
            exact ⟨by simp, by simpa using hs⟩
          obtain ⟨ih1, ih2⟩ := ih r' hr
          constructor
          · intro i hi
            cases r' with
            | none => simp at hi
            | some j =>
              obtain ⟨before, e, after, hsplit, hj, he, hb⟩ := ih1 j rfl
              refine ⟨f :: before, e, after, by rw [hsplit]; rfl, ?_, he, ?_⟩
              · simp only [Option.map_some', Option.some.injEq] at hi
                rw [← hi, hj]; rfl
              · intro x hx
                rcases List.mem_cons.1 hx with h1 | h1
                · rw [h1]; exact hf
                · exact hb x h1
          · intro hnone
            cases r' with
            | some j => simp at hnone
            | none =>
              intro x hx
              rcases List.mem_cons.1 hx with h1 | h1
              · rw [h1]; exact hf
              · exact ih2 rfl x h1

theorem findFriendIndex_of_first (before after : List Friend) (e : Friend) (t : String)
    (hwf : ∀ x, x ∈ before → x.profileId ≠ none)
    (hb : ∀ x, x ∈ before → x.profileId ≠ some t) (he : e.profileId = some t) :
    findFriendIndex (before ++ e :: after) t = Except.ok (some before.length) := by
  induction before with
  | nil => simp [findFriendIndex, he, jsToString, bind, Except.bind]
  | cons b bs ih =>
    have hb1 := hb b (List.mem_cons_self _ _)
    have hw1 := hwf b (List.mem_cons_self _ _)
    cases hp : b.profileId with
    | none => exact absurd hp hw1
    | some s =>
      have hs : s ≠ t := by
        intro h
        exact hb1 (by rw [hp, h])
      have ih' := ih (fun x hx => hwf x (List.mem_cons_of_mem _ hx))
        (fun x hx => hb x (List.mem_cons_of_mem _ hx))
      simp [findFriendIndex, hp, jsToString, bind, Except.bind, hs, ih']

theorem findFriendIndex_of_absent (fs : List Friend) (t : String)
    (hwf : ∀ x, x ∈ fs → x.profileId ≠ none)
    (hb : ∀ x, x ∈ fs → x.profileId ≠ some t) :
    findFriendIndex fs t = Except.ok none := by
  induction fs with
  | nil => simp [findFriendIndex]
  | cons b bs ih =>
    have hb1 := hb b (List.mem_cons_self _ _)
    have hw1 := hwf b (List.mem_cons_self _ _)
    cases hp : b.profileId with
    | none => exact absurd hp hw1
    | some s =>
      have hs : s ≠ t := by
        intro h
        exact hb1 (by rw [hp, h])
      have ih' := ih (fun x hx => hwf x (List.mem_cons_of_mem _ hx))
        (fun x hx => hb x (List.mem_cons_of_mem _ hx))
      simp [findFriendIndex, hp, jsToString, bind, Except.bind, hs, ih']

theorem first_or_absent (fs : List Friend) (t : String) :
    (∃ before e after, fs = before ++ e :: after ∧ e.profileId = some t
        ∧ ∀ x, x ∈ before → x.profileId ≠ some t)
    ∨ (∀ x, x ∈ fs → x.profileId ≠ some t) := by
  induction fs with
  | nil => exact Or.inr (by simp)
  | cons f rest ih =>
    by_cases hf : f.profileId = some t
    · exact Or.inl ⟨[], f, rest, rfl, hf, by simp⟩
    · rcases ih with ⟨before, e, after, hs, he, hb⟩ | habs
      · refine Or.inl ⟨f :: before, e, after, by rw [hs]; rfl, he, ?_⟩
        intro x hx
        rcases List.mem_cons.1 hx with h1 | h1
        · rw [h1]; exact hf
        · exact hb x h1
      · refine Or.inr ?_
        intro x hx
        rcases List.mem_cons.1 hx with h1 | h1
        · rw [h1]; exact hf
        · exact habs x h1

theorem getElem?_length_append (before after : List Friend) (e : Friend) :
    (before ++ e :: after)[before.length]? = some e := by
  induction before with
  | nil => simp
  | cons b bs ih => simpa using ih

theorem setLevelAt_first (before after : List Friend) (e : Friend) (level : String) :
    setLevelAt (before ++ e :: after) before.length level
      = before ++ { e with level := some level } :: after := by
  unfold setLevelAt
  rw [getElem?_length_append]
  induction before with
  | nil => rfl
  | cons b bs ih => simp [ih]

theorem eraseIdx_first (before after : List Friend) (e : Friend) :
    (before ++ e :: after).eraseIdx before.length = before ++ after := by
  induction before with
  | nil => rfl
  | cons b bs ih => simpa using ih


theorem upsertFriend_inv (fs fs' : List Friend) (t level : String)
    (h : upsertFriend (some fs) t level = Except.ok fs') :
    (∃ before e after, fs = before ++ e :: after ∧ e.profileId = some t
        ∧ (∀ x, x ∈ before → x.profileId ≠ none ∧ x.profileId ≠ some t)
        ∧ fs' = before ++ { e with level := some level } :: after)
    ∨ ((∀ x, x ∈ fs → x.profileId ≠ none ∧ x.profileId ≠ some t)
        ∧ fs' = fs ++ [{ profileId := some (objectIdString t), level := some level }]) := by
  unfold upsertFriend at h
  cases hr : findFriendIndex fs t with
  | error err => simp [hr, bind, Except.bind] at h
  | ok r =>
    obtain ⟨h1, h2⟩ := findFriendIndex_inv fs t r hr
    cases r with
    | some i =>
      obtain ⟨before, e, after, hs, hi, he, hb⟩ := h1 i rfl
      simp only [hr, bind, Except.bind, Except.ok.injEq] at h
      refine Or.inl ⟨before, e, after, hs, he, hb, ?_⟩
      rw [← h, hs, hi, setLevelAt_first]
    | none =>
      simp only [hr, bind, Except.bind, Except.ok.injEq] at h
      exact Or.inr ⟨h2 rfl, h.symm⟩

theorem upsertFriend_of_first (before after : List Friend) (e : Friend) (t level : String)
    (hwf : ∀ x, x ∈ before → x.profileId ≠ none)
    (hb : ∀ x, x ∈ before → x.profileId ≠ some t) (he : e.profileId = some t) :
    upsertFriend (some (before ++ e :: after)) t level
      = Except.ok (before ++ { e with level := some level } :: after) := by
  simp [upsertFriend, findFriendIndex_of_first before after e t hwf hb he, bind, Except.bind,
    setLevelAt_first]

theorem upsertFriend_of_absent (fs : List Friend) (t level : String)
    (hwf : ∀ x, x ∈ fs → x.profileId ≠ none)
    (hb : ∀ x, x ∈ fs → x.profileId ≠ some t) :
    upsertFriend (some fs) t level
      = Except.ok (fs ++ [{ profileId := some (objectIdString t), level := some level }]) := by
  simp [upsertFriend, findFriendIndex_of_absent fs t hwf hb, bind, Except.bind]

theorem filterFriends_inv (fs : List Friend) (t : String) :
    ∀ fs', filterFriends fs t = Except.ok fs' →
      fs' = fs.filter (fun f => decide (f.profileId ≠ some t)) := by
  induction fs with
  | nil =>
    intro fs' h
    simp only [filterFriends, Except.ok.injEq] at h
    simp [← h]
  | cons f rest ih =>
    intro fs' h
    cases hp : f.profileId with
    | none => simp [filterFriends, hp, jsToString, bind, Except.bind] at h
    | some s =>
      cases hr : filterFriends rest t with
      | error err => simp [filterFriends, hp, jsToString, bind, Except.bind, hr] at h
      | ok kept =>
        have hk := ih kept hr
        by_cases hs : s = t
        · simp only [filterFriends, hp, jsToString, bind, Except.bind, hr, hs, ne_eq,
            not_true_eq_false, if_false, Except.ok.injEq] at h
          rw [← h, hk]
          simp [List.filter_cons, hp, hs]
        · simp only [filterFriends, hp, jsToString, bind, Except.bind, hr, hs, ne_eq,
            not_false_eq_true, if_true, Except.ok.injEq] at h
          rw [← h, hk]
          simp [List.filter_cons, hp, hs]

theorem filterFriends_ok (fs : List Friend) (t : String)
    (hwf : ∀ x, x ∈ fs → x.profileId ≠ none) :
    filterFriends fs t = Except.ok (fs.filter (fun f => decide (f.profileId ≠ some t))) := by
  induction fs with
  | nil => simp [filterFriends]
  | cons f rest ih =>
    have hw1 := hwf f (List.mem_cons_self _ _)
    have ih' := ih (fun x hx => hwf x (List.mem_cons_of_mem _ hx))
    cases hp : f.profileId with
    | none => exact absurd hp hw1
    | some s =>
      by_cases hs : s = t
      · simp [filterFriends, hp, jsToString, bind, Except.bind, ih', hs, List.filter_cons]
      · simp [filterFriends, hp, jsToString, bind, Except.bind, ih', hs, List.filter_cons]

theorem findById_id (db : Db) (id : String) (p : Profile) (h : findById db id = some p) :
    p._id = objectIdString id := by
  have := List.find?_some h
  simpa using this

theorem preSave_id (doc : Profile) : (preSave doc)._id = doc._id := by
  unfold preSave
  split <;> rfl

theorem findById_save (db : Db) (doc : Profile) (id : String) :
    findById (save db doc) id
      = (findById db id).map (fun p => if p._id = doc._id then preSave doc else p) := by
  unfold findById save
  rw [List.find?_map]
  have hfun : ((fun p : Profile => decide (p._id = objectIdString id))
      ∘ fun p => if p._id = doc._id then preSave doc else p)
      = fun p : Profile => decide (p._id = objectIdString id) := by
    funext p
    simp only [Function.comp]
    by_cases hp : p._id = doc._id
    · simp [hp, preSave_id]
    · simp [hp]
  rw [hfun]

theorem preSave_friends (doc : Profile) : (preSave doc).friends = doc.friends := by
  unfold preSave
  split <;> rfl


theorem first_split_unique (b₁ b₂ a₁ a₂ : List Friend) (e₁ e₂ : Friend) (t : String)
    (h : b₁ ++ e₁ :: a₁ = b₂ ++ e₂ :: a₂)
    (he₁ : e₁.profileId = some t) (he₂ : e₂.profileId = some t)
    (hb₁ : ∀ x, x ∈ b₁ → x.profileId ≠ some t) (hb₂ : ∀ x, x ∈ b₂ → x.profileId ≠ some t) :
    b₁ = b₂ ∧ e₁ = e₂ ∧ a₁ = a₂ := by
  induction b₁ generalizing b₂ with
  | nil =>
    cases b₂ with
    | nil =>
      simp only [List.nil_append, List.cons.injEq] at h
      exact ⟨rfl, h.1, h.2⟩
    | cons c cs =>
      simp only [List.nil_append, List.cons_append, List.cons.injEq] at h
      exact absurd (h.1 ▸ he₁) (hb₂ c (List.mem_cons_self _ _))
  | cons c cs ih =>
    cases b₂ with
    | nil =>
      simp only [List.nil_append, List.cons_append, List.cons.injEq] at h
      exact absurd (h.1 ▸ he₂) (hb₁ c (List.mem_cons_self _ _))
    | cons d ds =>
      simp only [List.cons_append, List.cons.injEq] at h
      obtain ⟨h1, h2, h3⟩ := ih ds h.2 (fun x hx => hb₁ x (List.mem_cons_of_mem _ hx))
        (fun x hx => hb₂ x (List.mem_cons_of_mem _ hx))
      exact ⟨by rw [h.1, h1], h2, h3⟩


theorem findById_save_viewer (db : Db) (V doc : Profile) (id : String)
    (hV : findById db id = some V) (hid : doc._id = V._id) :
    findById (save db doc) id = some (preSave doc) := by
  rw [findById_save, hV]
  simp [hid]

theorem findById_save_other (db : Db) (T doc : Profile) (id : String)
    (hT : findById db id = some T) (hid : T._id ≠ doc._id) :
    findById (save db doc) id = some T := by
  rw [findById_save, hT]
  simp [hid]

theorem friendsOf_save_viewer (db : Db) (V doc : Profile) (id : String)
    (hV : findById db id = some V) (hid : doc._id = V._id) :
    friendsOf (save db doc) id = doc.friends := by
  unfold friendsOf
  rw [findById_save_viewer db V doc id hV hid]
  simp [preSave_friends]

theorem followProfile_step (db : Db) (vid t : String) (V T : Profile)
    (hv : isValidObjectId (some vid) = true) (ht : isValidObjectId (some t) = true)
    (hne : vid ≠ t) (hV : findById db vid = some V) (hT : findById db t = some T) :
    followProfile db (some vid) t
      = match upsertFriend V.friends t "follower" with
        | Except.error _ =>
          ({ status := 500, message := "Server error", relationship := none }, db)
        | Except.ok friends =>
          ({ status := 200, message := "Profile followed successfully",
             relationship := some "follower" },
            save db { V with friends := some friends }) := by
  simp [followProfile, hv, ht, hne, hV, hT]

theorem addCloseFriend_step (db : Db) (vid t : String) (V T : Profile)
    (hv : isValidObjectId (some vid) = true) (ht : isValidObjectId (some t) = true)
    (hne : vid ≠ t) (hV : findById db vid = some V) (hT : findById db t = some T) :
    addCloseFriend db (some vid) t
      = match upsertFriend V.friends t "close" with
        | Except.error _ =>
          ({ status := 500, message := "Server error", relationship := none }, db)
        | Except.ok friends =>
          ({ status := 200, message := "Profile added as close friend",
             relationship := some "close" },
            save db { V with friends := some friends }) := by
  simp [addCloseFriend, hv, ht, hne, hV, hT]

theorem removeCloseFriend_step (db : Db) (vid t : String) (V : Profile) (fs : List Friend)
    (hv : isValidObjectId (some vid) = true) (ht : isValidObjectId (some t) = true)
    (hV : findById db vid = some V) (hfs : V.friends = some fs) :
    removeCloseFriend db (some vid) t
      = match findFriendIndex fs t with
        | Except.error _ =>
          ({ status := 500, message := "Server error", relationship := none }, db)
        | Except.ok none =>
          ({ status := 400, message := "Profile not in friends list",
             relationship := none }, db)
        | Except.ok (some friendIndex) =>
          ({ status := 200, message := "Close friend relationship removed",
             relationship :=
               some (if newLevelAt (downgradeOrRemove fs friendIndex) friendIndex
                        = some "follower" then "follower" else "none") },
            save db { V with friends := some (downgradeOrRemove fs friendIndex) }) := by
  simp only [removeCloseFriend, hv, ht, hV, hfs, Option.some_bind, Bool.not_true,
    Bool.or_self, Bool.false_eq_true, if_false]

theorem unfollowProfile_step (db : Db) (vid t : String) (V : Profile) (fs : List Friend)
    (hv : isValidObjectId (some vid) = true) (ht : isValidObjectId (some t) = true)
    (hV : findById db vid = some V) (hfs : V.friends = some fs) :
    unfollowProfile db (some vid) t
      = match filterFriends fs t with
        | Except.error _ =>
          ({ status := 500, message := "Server error", relationship := none }, db)
        | Except.ok friends =>
          ({ status := 200, message := "Profile unfollowed successfully",
             relationship := none },
            save db { V with friends := some friends }) := by
  simp only [unfollowProfile, hv, ht, hV, hfs, Option.some_bind, Bool.not_true,
    Bool.or_self, Bool.false_eq_true, if_false]

theorem upsertFriend_none (t level : String) :
    upsertFriend none t level = Except.error JsError.typeError := rfl


theorem upsertFriend_ok_of_wf (fs : List Friend) (t level : String)
    (hwf : ∀ f, f ∈ fs → f.profileId ≠ none) :
    ∃ fs', upsertFriend (some fs) t level = Except.ok fs' := by
  rcases first_or_absent fs t with ⟨before, e, after, hs, he, hb⟩ | habs
  · subst hs
    exact ⟨_, upsertFriend_of_first before after e t level
      (fun x hx => hwf x (List.mem_append_left _ hx)) hb he⟩
  · exact ⟨_, upsertFriend_of_absent fs t level hwf habs⟩

theorem with_level_eq_self (e : Friend) (level : String) (h : e.level = some level) :
    ({ e with level := some level } : Friend) = e := by
  cases e
  simp only at h
  simp [h]

theorem upsertFriend_normal (fs fs' : List Friend) (t level : String)
    (h : upsertFriend (some fs) t level = Except.ok fs') (ht : objectIdString t = t) :
    ∃ before e after, fs' = before ++ e :: after ∧ e.profileId = some t
      ∧ e.level = some level
      ∧ (∀ x, x ∈ before → x.profileId ≠ none ∧ x.profileId ≠ some t)
      ∧ ((∃ e₀, fs = before ++ e₀ :: after ∧ e₀.profileId = some t
            ∧ e = { e₀ with level := some level })
          ∨ (fs = before ∧ after = [] ∧ e = { profileId := some t, level := some level })) := by
  rcases upsertFriend_inv fs fs' t level h with ⟨before, e, after, hs, he, hb, hfs'⟩ | ⟨hb, hfs'⟩
  · exact ⟨before, { e with level := some level }, after, hfs', he, rfl, hb,
      Or.inl ⟨e, hs, he, rfl⟩⟩
  · rw [ht] at hfs'
    exact ⟨fs, { profileId := some t, level := some level }, [], hfs', rfl, rfl, hb,
      Or.inr ⟨rfl, rfl, rfl⟩⟩

/-- C13: `followProfile` and `addCloseFriend` called with the acting viewer's
own id as target both answer 400 with the self-target message and leave the
collection, hence the viewer's edge list, unchanged. -/
theorem self_target_rejected (db : Db) (v : Profile)
    (hid : isValidObjectId (some v._id) = true) :
    followProfile db (some v._id) v._id
        = ({ status := 400, message := "You cannot follow yourself", relationship := none }, db)
    ∧ addCloseFriend db (some v._id) v._id
        = ({ status := 400, message := "You cannot add yourself as close friend",
             relationship := none }, db)
    ∧ friendsOf (followProfile db (some v._id) v._id).2 v._id = friendsOf db v._id
    ∧ friendsOf (addCloseFriend db (some v._id) v._id).2 v._id = friendsOf db v._id := by
  have h1 : followProfile db (some v._id) v._id
      = ({ status := 400, message := "You cannot follow yourself", relationship := none },
          db) := by
    simp [followProfile, hid]
  have h2 : addCloseFriend db (some v._id) v._id
      = ({ status := 400, message := "You cannot add yourself as close friend",
           relationship := none }, db) := by
    simp [addCloseFriend, hid]
  exact ⟨h1, h2, by rw [h1], by rw [h2]⟩

theorem followProfile_ok_inv (db : Db) (V T : Profile)
    (hV : findById db V._id = some V) (hT : findById db T._id = some T)
    (hne : V._id ≠ T._id)
    (hok : (followProfile db (some V._id) T._id).1.status = 200) :
    isValidObjectId (some V._id) = true ∧ isValidObjectId (some T._id) = true
    ∧ ∃ fs fs', V.friends = some fs ∧ upsertFriend (some fs) T._id "follower" = Except.ok fs'
      ∧ followProfile db (some V._id) T._id
          = ({ status := 200, message := "Profile followed successfully",
               relationship := some "follower" },
             save db { V with friends := some fs' }) := by
  by_cases hv : isValidObjectId (some V._id) = true
  · by_cases ht : isValidObjectId (some T._id) = true
    · have hstep := followProfile_step db V._id T._id V T hv ht hne hV hT
      refine ⟨hv, ht, ?_⟩
      cases hfs : V.friends with
      | none =>
        rw [hstep, hfs, upsertFriend_none] at hok
        simp at hok
      | some fs =>
        cases hup : upsertFriend (some fs) T._id "follower" with
        | error err =>
          rw [hstep, hfs, hup] at hok
          simp at hok
        | ok fs' =>
          refine ⟨fs, fs', rfl, hup, ?_⟩
          rw [hstep, hfs, hup]
    · simp [followProfile, ht] at hok
  · simp [followProfile, hv] at hok


theorem filter_ne_first (before after : List Friend) (e : Friend) (t : String)
    (he : e.profileId = some t) :
    (before ++ e :: after).filter (fun f => decide (f.profileId ≠ some t))
      = (before ++ after).filter (fun f => decide (f.profileId ≠ some t)) := by
  simp [List.filter_append, List.filter_cons, he]

/-- C15: for an existing viewer `V` and an existing target `T` other than `V`,
`followProfile` succeeds when the ids are valid and every entry of `V.friends`
has a `profileId`; and whenever it succeeds it reports `follower`, re-tiers the
first entry for `T` in place or else appends a new follower entry, leaves the
entries of other peers as they were, and a second call succeeds and yields the
same edge list. -/
theorem follow_sets_follower_idempotent (db : Db) (V T : Profile)
    (hV : findById db V._id = some V) (hT : findById db T._id = some T)
    (hne : V._id ≠ T._id) :
    ((isValidObjectId (some V._id) = true ∧ isValidObjectId (some T._id) = true
        ∧ ∃ fs, V.friends = some fs ∧ ∀ f, f ∈ fs → f.profileId ≠ none) →
      (followProfile db (some V._id) T._id).1.status = 200)
    ∧ ((followProfile db (some V._id) T._id).1.status = 200 →
      ∃ fs fs', V.friends = some fs
        ∧ friendsOf (followProfile db (some V._id) T._id).2 V._id = some fs'
        ∧ (followProfile db (some V._id) T._id).1.relationship = some "follower"
        ∧ (∀ before e after, fs = before ++ e :: after → e.profileId = some T._id →
            (∀ x, x ∈ before → x.profileId ≠ some T._id) →
            fs' = before ++ { e with level := some "follower" } :: after)
        ∧ ((∀ x, x ∈ fs → x.profileId ≠ some T._id) →
            fs' = fs ++ [{ profileId := some T._id, level := some "follower" }])
        ∧ (∃ e, e ∈ fs' ∧ e.profileId = some T._id ∧ e.level = some "follower")
        ∧ fs'.filter (fun f => decide (f.profileId ≠ some T._id))
            = fs.filter (fun f => decide (f.profileId ≠ some T._id))
        ∧ (followProfile (followProfile db (some V._id) T._id).2 (some V._id) T._id).1.status
            = 200
        ∧ friendsOf (followProfile (followProfile db (some V._id) T._id).2
              (some V._id) T._id).2 V._id = some fs') := by
  have hcanon : objectIdString T._id = T._id := (findById_id db T._id T hT).symm
  constructor
  · rintro ⟨hv, ht, fs, hfs, hwf⟩
    obtain ⟨fs', hup⟩ := upsertFriend_ok_of_wf fs T._id "follower" hwf
    rw [followProfile_step db V._id T._id V T hv ht hne hV hT, hfs, hup]
  · intro hok
    obtain ⟨hv, ht, fs, fs', hfs, hup, hfollow⟩ := followProfile_ok_inv db V T hV hT hne hok
    obtain ⟨before, e, after, hfs', he, hel, hb, hcase⟩ :=
      upsertFriend_normal fs fs' T._id "follower" hup hcanon
    have hV1 : findById (save db { V with friends := some fs' }) V._id
        = some (preSave { V with friends := some fs' }) :=
      findById_save_viewer db V _ V._id hV rfl
    have hT1 : findById (save db { V with friends := some fs' }) T._id = some T :=
      findById_save_other db T _ T._id hT (fun h => hne h.symm)
    have hup2 : upsertFriend (preSave { V with friends := some fs' }).friends T._id "follower"
        = Except.ok fs' := by
      rw [preSave_friends]
      show upsertFriend (some fs') T._id "follower" = Except.ok fs'
      rw [hfs', upsertFriend_of_first before after e T._id "follower"
        (fun x hx => (hb x hx).1) (fun x hx => (hb x hx).2) he,
        with_level_eq_self e "follower" hel]
    have hsecond := followProfile_step (save db { V with friends := some fs' }) V._id T._id
      (preSave { V with friends := some fs' }) T hv ht hne hV1 hT1
    rw [hup2] at hsecond
    refine ⟨fs, fs', hfs, ?_, ?_, ?_, ?_, ⟨e, ?_, he, hel⟩, ?_, ?_, ?_⟩
    · rw [hfollow]
      exact friendsOf_save_viewer db V _ V._id hV rfl
    · rw [hfollow]
    · intro b0 e0 a0 hsplit he0 hb0
      rcases hcase with ⟨e₀, hfs0, he₀, heq⟩ | ⟨hfseq, _, _⟩
      · obtain ⟨h1, h2, h3⟩ := first_split_unique b0 before a0 after e0 e₀ T._id
          (hsplit.symm.trans hfs0) he0 he₀ hb0 (fun x hx => (hb x hx).2)
        rw [hfs', heq, h1, h2, h3]
      · have hmem : e0 ∈ before := by
          rw [← hfseq, hsplit]
          exact List.mem_append_right _ (List.mem_cons_self _ _)
        exact absurd he0 (hb e0 hmem).2
    · intro habs
      rcases hcase with ⟨e₀, hfs0, he₀, _⟩ | ⟨hfseq, haft, heq⟩
      · have hmem : e₀ ∈ fs := by
          rw [hfs0]
          exact List.mem_append_right _ (List.mem_cons_self _ _)
        exact absurd he₀ (habs e₀ hmem)
      · rw [hfs', hfseq, haft, heq]
    · rw [hfs']
      exact List.mem_append_right _ (List.mem_cons_self _ _)
    · rcases hcase with ⟨e₀, hfs0, he₀, _⟩ | ⟨hfseq, haft, _⟩
      · rw [hfs', hfs0, filter_ne_first before after e T._id he,
          filter_ne_first before after e₀ T._id he₀]
      · rw [hfs', hfseq, haft, filter_ne_first before [] e T._id he]
        simp
    · rw [hfollow]
      show (followProfile (save db { V with friends := some fs' }) (some V._id) T._id).1.status
        = 200
      rw [hsecond]
    · rw [hfollow]
      show friendsOf (followProfile (save db { V with friends := some fs' })
        (some V._id) T._id).2 V._id = some fs'
      rw [hsecond]
      exact friendsOf_save_viewer _ _ _ V._id hV1 rfl


theorem nodup_after (before after : List Friend) (e : Friend)
    (h : ((before ++ e :: after).map (fun f => f.profileId)).Nodup) :
    ∀ x, x ∈ after → x.profileId ≠ e.profileId := by
  intro x hx heq
  rw [List.map_append, List.map_cons, List.nodup_append] at h
  have h2 := (List.nodup_cons.1 h.2.1).1
  exact h2 (heq ▸ List.mem_map_of_mem (fun f => f.profileId) hx)

theorem filter_eq_first (before after : List Friend) (e : Friend) (t : String)
    (he : e.profileId = some t)
    (hb : ∀ x, x ∈ before → x.profileId ≠ some t)
    (ha : ∀ x, x ∈ after → x.profileId ≠ some t) :
    (before ++ e :: after).filter (fun f => decide (f.profileId = some t)) = [e] := by
  have h1 : before.filter (fun f => decide (f.profileId = some t)) = [] := by
    rw [List.filter_eq_nil_iff]
    intro x hx
    simpa using hb x hx
  have h2 : after.filter (fun f => decide (f.profileId = some t)) = [] := by
    rw [List.filter_eq_nil_iff]
    intro x hx
    simpa using ha x hx
  simp [List.filter_append, List.filter_cons, he, h1, h2]

theorem with_level_eq_mk (e : Friend) (t level : String) (he : e.profileId = some t) :
    ({ e with level := some level } : Friend) = { profileId := some t, level := some level } := by
  cases e
  simp only at he
  simp [he]

/-- After a successful upsert on a list without repeated peers, the list splits
around the single entry of the target. -/
theorem upsertFriend_normal_uniq (fs fs' : List Friend) (t level : String)
    (h : upsertFriend (some fs) t level = Except.ok fs') (ht : objectIdString t = t)
    (huniq : (fs.map (fun f => f.profileId)).Nodup) :
    ∃ before e after, fs' = before ++ e :: after ∧ e.profileId = some t
      ∧ e.level = some level
      ∧ (∀ x, x ∈ before → x.profileId ≠ none ∧ x.profileId ≠ some t)
      ∧ (∀ x, x ∈ after → x.profileId ≠ some t) := by
  obtain ⟨before, e, after, hfs', he, hel, hb, hcase⟩ := upsertFriend_normal fs fs' t level h ht
  refine ⟨before, e, after, hfs', he, hel, hb, ?_⟩
  rcases hcase with ⟨e₀, hfs0, he₀, _⟩ | ⟨_, haft, _⟩
  · rw [hfs0] at huniq
    intro x hx
    rw [← he₀]
    exact nodup_after before after e₀ huniq x hx
  · rw [haft]
    simp

/-- C17: from an edge list with at most one entry per peer, `followProfile`
followed by `addCloseFriend` on the same existing target both succeed and leave
exactly one entry for the target, with level `close`. -/
theorem follow_then_close_single_edge (db : Db) (V T : Profile) (fs : List Friend)
    (hV : findById db V._id = some V) (hT : findById db T._id = some T)
    (hne : V._id ≠ T._id)
    (hvid : isValidObjectId (some V._id) = true) (htid : isValidObjectId (some T._id) = true)
    (hfs : V.friends = some fs) (hwf : ∀ f, f ∈ fs → f.profileId ≠ none)
    (huniq : (fs.map (fun f => f.profileId)).Nodup) :
    (followProfile db (some V._id) T._id).1.status = 200
    ∧ (addCloseFriend (followProfile db (some V._id) T._id).2 (some V._id) T._id).1.status = 200
    ∧ ∃ fs'', friendsOf (addCloseFriend (followProfile db (some V._id) T._id).2
          (some V._id) T._id).2 V._id = some fs''
        ∧ fs''.filter (fun f => decide (f.profileId = some T._id))
            = [{ profileId := some T._id, level := some "close" }] := by
  have hcanon : objectIdString T._id = T._id := (findById_id db T._id T hT).symm
  obtain ⟨fs', hup⟩ := upsertFriend_ok_of_wf fs T._id "follower" hwf
  have hfollow := followProfile_step db V._id T._id V T hvid htid hne hV hT
  rw [hfs, hup] at hfollow
  obtain ⟨before, e, after, hfs', he, _, hb, ha⟩ :=
    upsertFriend_normal_uniq fs fs' T._id "follower" hup hcanon huniq
  have hV1 : findById (save db { V with friends := some fs' }) V._id
      = some (preSave { V with friends := some fs' }) :=
    findById_save_viewer db V _ V._id hV rfl
  have hT1 : findById (save db { V with friends := some fs' }) T._id = some T :=
    findById_save_other db T _ T._id hT (fun h => hne h.symm)
  have hup2 : upsertFriend (preSave { V with friends := some fs' }).friends T._id "close"
      = Except.ok (before ++ { e with level := some "close" } :: after) := by
    rw [preSave_friends]
    show upsertFriend (some fs') T._id "close" = _
    rw [hfs', upsertFriend_of_first before after e T._id "close"
      (fun x hx => (hb x hx).1) (fun x hx => (hb x hx).2) he]
  have hsecond := addCloseFriend_step (save db { V with friends := some fs' }) V._id T._id
    (preSave { V with friends := some fs' }) T hvid htid hne hV1 hT1
  rw [hup2] at hsecond
  rw [hfollow]
  refine ⟨rfl, ?_, before ++ { e with level := some "close" } :: after, ?_, ?_⟩
  · show (addCloseFriend (save db { V with friends := some fs' }) (some V._id) T._id).1.status
      = 200
    rw [hsecond]
  · show friendsOf (addCloseFriend (save db { V with friends := some fs' })
      (some V._id) T._id).2 V._id = _
    rw [hsecond]
    exact friendsOf_save_viewer _ _ _ V._id hV1 rfl
  · rw [filter_eq_first before after { e with level := some "close" } T._id he
      (fun x hx => (hb x hx).2) ha, with_level_eq_mk e T._id "close" he]


theorem downgradeOrRemove_close (before after : List Friend) (e : Friend)
    (hl : e.level = some "close") :
    downgradeOrRemove (before ++ e :: after) before.length
      = before ++ { e with level := some "follower" } :: after := by
  unfold downgradeOrRemove
  rw [getElem?_length_append, Option.some_bind, if_pos hl, setLevelAt_first]

theorem downgradeOrRemove_other (before after : List Friend) (e : Friend)
    (hl : e.level ≠ some "close") :
    downgradeOrRemove (before ++ e :: after) before.length = before ++ after := by
  unfold downgradeOrRemove
  rw [getElem?_length_append, Option.some_bind, if_neg hl, eraseIdx_first]

theorem newLevelAt_first (before after : List Friend) (e : Friend) :
    newLevelAt (before ++ e :: after) before.length = e.level := by
  unfold newLevelAt
  rw [getElem?_length_append]

/-- C18: from an edge list with at most one entry per peer, `addCloseFriend`
followed by `removeCloseFriend` on the same existing target both succeed,
`removeCloseFriend` reports `follower`, the edge list keeps its length, and its
single entry for the target has level `follower`. -/
theorem close_then_unclose_keeps_follower (db : Db) (V T : Profile) (fs : List Friend)
    (hV : findById db V._id = some V) (hT : findById db T._id = some T)
    (hne : V._id ≠ T._id)
    (hvid : isValidObjectId (some V._id) = true) (htid : isValidObjectId (some T._id) = true)
    (hfs : V.friends = some fs) (hwf : ∀ f, f ∈ fs → f.profileId ≠ none)
    (huniq : (fs.map (fun f => f.profileId)).Nodup) :
    (addCloseFriend db (some V._id) T._id).1.status = 200
    ∧ (removeCloseFriend (addCloseFriend db (some V._id) T._id).2 (some V._id) T._id).1
        = { status := 200, message := "Close friend relationship removed",
            relationship := some "follower" }
    ∧ ∃ fs' fs'', friendsOf (addCloseFriend db (some V._id) T._id).2 V._id = some fs'
        ∧ friendsOf (removeCloseFriend (addCloseFriend db (some V._id) T._id).2
            (some V._id) T._id).2 V._id = some fs''
        ∧ fs''.length = fs'.length
        ∧ fs''.filter (fun f => decide (f.profileId = some T._id))
            = [{ profileId := some T._id, level := some "follower" }] := by
  have hcanon : objectIdString T._id = T._id := (findById_id db T._id T hT).symm
  obtain ⟨fs', hup⟩ := upsertFriend_ok_of_wf fs T._id "close" hwf
  have hadd := addCloseFriend_step db V._id T._id V T hvid htid hne hV hT
  rw [hfs, hup] at hadd
  obtain ⟨before, e, after, hfs', he, hel, hb, ha⟩ :=
    upsertFriend_normal_uniq fs fs' T._id "close" hup hcanon huniq
  have hV1 : findById (save db { V with friends := some fs' }) V._id
      = some (preSave { V with friends := some fs' }) :=
    findById_save_viewer db V _ V._id hV rfl
  have hfs1 : (preSave { V with friends := some fs' }).friends = some (before ++ e :: after) := by
    rw [preSave_friends, ← hfs']
  have hsecond := removeCloseFriend_step (save db { V with friends := some fs' }) V._id T._id
    (preSave { V with friends := some fs' }) (before ++ e :: after) hvid htid hV1 hfs1
  rw [findFriendIndex_of_first before after e T._id (fun x hx => (hb x hx).1)
    (fun x hx => (hb x hx).2) he] at hsecond
  simp only [downgradeOrRemove_close before after e hel, newLevelAt_first, if_true]
    at hsecond
  rw [hadd]
  refine ⟨rfl, ?_, fs', before ++ { e with level := some "follower" } :: after, ?_, ?_, ?_, ?_⟩
  · show (removeCloseFriend (save db { V with friends := some fs' }) (some V._id) T._id).1 = _
    rw [hsecond]
  · exact friendsOf_save_viewer db V _ V._id hV rfl
  · show friendsOf (removeCloseFriend (save db { V with friends := some fs' })
      (some V._id) T._id).2 V._id = _
    rw [hsecond]
    exact friendsOf_save_viewer _ _ _ V._id hV1 rfl
  · rw [hfs']
    simp
  · rw [filter_eq_first before after { e with level := some "follower" } T._id he
      (fun x hx => (hb x hx).2) ha, with_level_eq_mk e T._id "follower" he]


theorem nodup_jsSetSpread (l : List String) : (jsSetSpread l).Nodup := by
  induction l with
  | nil => simp [jsSetSpread]
  | cons x xs ih =>
    simp only [jsSetSpread, List.nodup_cons, List.mem_filter]
    exact ⟨by simp, ih.filter _⟩

theorem getD_mem_congr (a b : Option (List String)) (d : List String)
    (hsome : a.isSome = b.isSome) (hmem : ∀ k, k ∈ a.getD [] ↔ k ∈ b.getD []) :
    ∀ k, k ∈ a.getD d ↔ k ∈ b.getD d := by
  cases a with
  | none =>
    cases b with
    | none => intro k; rfl
    | some l' => simp at hsome
  | some l =>
    cases b with
    | none => simp at hsome
    | some l' => simpa using hmem

theorem filterProfileFields_of_mem (P : Profile) (l₁ l₂ : List String)
    (h : ∀ k, k ∈ l₁ ↔ k ∈ l₂) :
    filterProfileFields P l₁ = filterProfileFields P l₂ := by
  apply filterProfileFields_congr
  intro k
  simp only [List.contains, List.elem_eq_mem, h]

theorem filterProfileFields_visibility (P : Profile) (vis' : Option Visibility)
    (l : List String) :
    filterProfileFields { P with visibility := vis' } l = filterProfileFields P l := rfl

theorem getVisibleFields_of_other_dedup (P : Profile) (v : String) (hv : v ≠ "")
    (hne : v ≠ P._id) :
    getVisibleFields P (some v)
      = Except.ok (filterProfileFields P
          (jsSetSpread (allowedFieldsFor P (findRelationship P v)))) := by
  simp [getVisibleFields, getVisibleFieldsTry, jsTruthy, jsToString, hv, hne, bind,
    Except.bind]

/-- C20, amended: for a viewer other than the owner, two profiles that differ
only in their policy, with the same lists present and the same names in each
list, yield the same view; and the list that a viewer with a non-empty id is
projected onto has no repeated name. -/
theorem policy_lists_as_sets (P P' : Profile) (viewer : Option String)
    (hP' : P' = { P with visibility := P'.visibility })
    (hpub : P.publicFields.isSome = P'.publicFields.isSome
      ∧ ∀ k, k ∈ P.publicFields.getD [] ↔ k ∈ P'.publicFields.getD [])
    (hfol : P.followerFields.isSome = P'.followerFields.isSome
      ∧ ∀ k, k ∈ P.followerFields.getD [] ↔ k ∈ P'.followerFields.getD [])
    (hclose : P.closeFriendFields.isSome = P'.closeFriendFields.isSome
      ∧ ∀ k, k ∈ P.closeFriendFields.getD [] ↔ k ∈ P'.closeFriendFields.getD [])
    (hviewer : viewer ≠ some P._id) :
    getVisibleFields P viewer = getVisibleFields P' viewer
    ∧ ∀ v, viewer = some v → v ≠ "" →
        getVisibleFields P viewer
            = Except.ok (filterProfileFields P
                (jsSetSpread (allowedFieldsFor P (findRelationship P v))))
          ∧ (jsSetSpread (allowedFieldsFor P (findRelationship P v))).Nodup := by
  refine ⟨?_, fun v hv1 hv2 => ⟨?_, nodup_jsSetSpread _⟩⟩
  swap
  · subst hv1
    exact getVisibleFields_of_other_dedup P v hv2 (fun h => hviewer (by rw [h]))
  have hid : P'._id = P._id := by rw [hP']
  have hfriends : P'.friends = P.friends := by rw [hP']
  have hfilter : ∀ l, filterProfileFields P' l = filterProfileFields P l := by
    intro l
    rw [hP']
    rfl
  by_cases ht : jsTruthy viewer = false
  · rw [getVisibleFields_of_falsy P viewer ht, getVisibleFields_of_falsy P' viewer ht, hfilter]
    congr 1
    exact filterProfileFields_of_mem P _ _
      (getD_mem_congr _ _ defaultPublicFields hpub.1 hpub.2)
  · cases viewer with
    | none => simp [jsTruthy] at ht
    | some v =>
      have hv : v ≠ "" := by simpa [jsTruthy] using ht
      have hne : v ≠ P._id := fun h => hviewer (by rw [h])
      have hrel : findRelationship P' v = findRelationship P v := by
        unfold findRelationship
        rw [hfriends]
      rw [getVisibleFields_of_other P v hv hne,
        getVisibleFields_of_other P' v hv (by rw [hid]; exact hne), hfilter, hrel]
      congr 1
      apply filterProfileFields_of_mem
      intro k
      have h1 := getD_mem_congr _ _ [] hpub.1 hpub.2 k
      have h2 := getD_mem_congr _ _ [] hfol.1 hfol.2 k
      have h3 := getD_mem_congr _ _ [] hclose.1 hclose.2 k
      have h4 := getD_mem_congr _ _ defaultPublicFields hpub.1 hpub.2 k
      unfold allowedFieldsFor
      simp only []
      split
      · simp only [List.mem_append, h1, h2, h3]
      · split
        · simp only [List.mem_append, h1, h2]
        · exact h4


theorem filter_other_upsert (fs fs' : List Friend) (t level : String)
    (h : upsertFriend (some fs) t level = Except.ok fs') :
    fs'.filter (fun f => decide (f.profileId ≠ some t ∧ f.profileId ≠ some (objectIdString t)))
      = fs.filter
          (fun f => decide (f.profileId ≠ some t ∧ f.profileId ≠ some (objectIdString t))) := by
  rcases upsertFriend_inv fs fs' t level h with ⟨before, e, after, hs, he, _, hfs'⟩ | ⟨_, hfs'⟩
  · rw [hfs', hs]
    simp [List.filter_append, List.filter_cons, he]
  · rw [hfs']
    simp [List.filter_append, List.filter_cons]

theorem filter_other_filterFriends (fs fs' : List Friend) (t : String)
    (h : filterFriends fs t = Except.ok fs') :
    fs'.filter (fun f => decide (f.profileId ≠ some t ∧ f.profileId ≠ some (objectIdString t)))
      = fs.filter
          (fun f => decide (f.profileId ≠ some t ∧ f.profileId ≠ some (objectIdString t))) := by
  rw [filterFriends_inv fs t fs' h, List.filter_filter]
  apply List.filter_congr
  intro x _
  by_cases hx : x.profileId = some t <;> simp [hx]

theorem filter_other_downgradeOrRemove (fs : List Friend) (t : String) (i : Nat)
    (h : findFriendIndex fs t = Except.ok (some i)) :
    (downgradeOrRemove fs i).filter
        (fun f => decide (f.profileId ≠ some t ∧ f.profileId ≠ some (objectIdString t)))
      = fs.filter
          (fun f => decide (f.profileId ≠ some t ∧ f.profileId ≠ some (objectIdString t))) := by
  obtain ⟨before, e, after, hs, hi, he, _⟩ := (findFriendIndex_inv fs t _ h).1 i rfl
  subst hs hi
  by_cases hl : e.level = some "close"
  · rw [downgradeOrRemove_close before after e hl]
    simp [List.filter_append, List.filter_cons, he]
  · rw [downgradeOrRemove_other before after e hl]
    simp [List.filter_append, List.filter_cons, he]


theorem followProfile_shape (db : Db) (viewerProfileId : Option String) (targetProfileId : String) :
    (followProfile db viewerProfileId targetProfileId).2 = db
    ∨ ∃ id V fs fs', viewerProfileId = some id ∧ findById db id = some V
        ∧ V.friends = some fs
        ∧ (followProfile db viewerProfileId targetProfileId).2
            = save db { V with friends := some fs' }
        ∧ fs'.filter (fun f => decide (f.profileId ≠ some targetProfileId
              ∧ f.profileId ≠ some (objectIdString targetProfileId)))
            = fs.filter (fun f => decide (f.profileId ≠ some targetProfileId
              ∧ f.profileId ≠ some (objectIdString targetProfileId))) := by
  cases viewerProfileId with
  | none => exact Or.inl (by simp [followProfile, isValidObjectId])
  | some id =>
    by_cases hv : isValidObjectId (some id) = true
    swap
    · exact Or.inl (by simp [followProfile, hv])
    by_cases ht : isValidObjectId (some targetProfileId) = true
    swap
    · exact Or.inl (by simp [followProfile, ht])
    by_cases hne : id = targetProfileId
    · exact Or.inl (by simp [followProfile, hv, ht, hne])
    cases hV : findById db id with
    | none => exact Or.inl (by simp [followProfile, hv, ht, hne, hV])
    | some V =>
      cases hT : findById db targetProfileId with
      | none => exact Or.inl (by simp [followProfile, hv, ht, hne, hV, hT])
      | some T =>
        have hstep := followProfile_step db id targetProfileId V T hv ht hne hV hT
        cases hfs : V.friends with
        | none =>
          rw [hfs, upsertFriend_none] at hstep
          exact Or.inl (by rw [hstep])
        | some fs =>
          cases hup : upsertFriend (some fs) targetProfileId "follower" with
          | error err =>
            rw [hfs, hup] at hstep
            exact Or.inl (by rw [hstep])
          | ok fs' =>
            rw [hfs, hup] at hstep
            exact Or.inr ⟨id, V, fs, fs', rfl, hV, hfs, by rw [hstep],
              filter_other_upsert fs fs' targetProfileId "follower" hup⟩

theorem addCloseFriend_shape (db : Db) (viewerProfileId : Option String) (targetProfileId : String) :
    (addCloseFriend db viewerProfileId targetProfileId).2 = db
    ∨ ∃ id V fs fs', viewerProfileId = some id ∧ findById db id = some V
        ∧ V.friends = some fs
        ∧ (addCloseFriend db viewerProfileId targetProfileId).2
            = save db { V with friends := some fs' }
        ∧ fs'.filter (fun f => decide (f.profileId ≠ some targetProfileId
              ∧ f.profileId ≠ some (objectIdString targetProfileId)))
            = fs.filter (fun f => decide (f.profileId ≠ some targetProfileId
              ∧ f.profileId ≠ some (objectIdString targetProfileId))) := by
  cases viewerProfileId with
  | none => exact Or.inl (by simp [addCloseFriend, isValidObjectId])
  | some id =>
    by_cases hv : isValidObjectId (some id) = true
    swap
    · exact Or.inl (by simp [addCloseFriend, hv])
    by_cases ht : isValidObjectId (some targetProfileId) = true
    swap
    · exact Or.inl (by simp [addCloseFriend, ht])
    by_cases hne : id = targetProfileId
    · exact Or.inl (by simp [addCloseFriend, hv, ht, hne])
    cases hV : findById db id with
    | none => exact Or.inl (by simp [addCloseFriend, hv, ht, hne, hV])
    | some V =>
      cases hT : findById db targetProfileId with
      | none => exact Or.inl (by simp [addCloseFriend, hv, ht, hne, hV, hT])
      | some T =>
        have hstep := addCloseFriend_step db id targetProfileId V T hv ht hne hV hT
        cases hfs : V.friends with
        | none =>
          rw [hfs, upsertFriend_none] at hstep
          exact Or.inl (by rw [hstep])
        | some fs =>
          cases hup : upsertFriend (some fs) targetProfileId "close" with
          | error err =>
            rw [hfs, hup] at hstep
            exact Or.inl (by rw [hstep])
          | ok fs' =>
            rw [hfs, hup] at hstep
            exact Or.inr ⟨id, V, fs, fs', rfl, hV, hfs, by rw [hstep],
              filter_other_upsert fs fs' targetProfileId "close" hup⟩

theorem unfollowProfile_shape (db : Db) (viewerProfileId : Option String)
    (targetProfileId : String) :
    (unfollowProfile db viewerProfileId targetProfileId).2 = db
    ∨ ∃ id V fs fs', viewerProfileId = some id ∧ findById db id = some V
        ∧ V.friends = some fs
        ∧ (unfollowProfile db viewerProfileId targetProfileId).2
            = save db { V with friends := some fs' }
        ∧ fs'.filter (fun f => decide (f.profileId ≠ some targetProfileId
              ∧ f.profileId ≠ some (objectIdString targetProfileId)))
            = fs.filter (fun f => decide (f.profileId ≠ some targetProfileId
              ∧ f.profileId ≠ some (objectIdString targetProfileId))) := by
  cases viewerProfileId with
  | none => exact Or.inl (by simp [unfollowProfile, isValidObjectId])
  | some id =>
    by_cases hv : isValidObjectId (some id) = true
    swap
    · exact Or.inl (by simp [unfollowProfile, hv])
    by_cases ht : isValidObjectId (some targetProfileId) = true
    swap
    · exact Or.inl (by simp [unfollowProfile, ht])
    cases hV : findById db id with
    | none => exact Or.inl (by simp [unfollowProfile, hv, ht, hV])
    | some V =>
      cases hfs : V.friends with
      | none => exact Or.inl (by simp [unfollowProfile, hv, ht, hV, hfs])
      | some fs =>
        have hstep := unfollowProfile_step db id targetProfileId V fs hv ht hV hfs
        cases hup : filterFriends fs targetProfileId with
        | error err =>
          rw [hup] at hstep
          exact Or.inl (by rw [hstep])
        | ok fs' =>
          rw [hup] at hstep
          exact Or.inr ⟨id, V, fs, fs', rfl, hV, hfs, by rw [hstep],
            filter_other_filterFriends fs fs' targetProfileId hup⟩

theorem removeCloseFriend_shape (db : Db) (viewerProfileId : Option String)
    (targetProfileId : String) :
    (removeCloseFriend db viewerProfileId targetProfileId).2 = db
    ∨ ∃ id V fs fs', viewerProfileId = some id ∧ findById db id = some V
        ∧ V.friends = some fs
        ∧ (removeCloseFriend db viewerProfileId targetProfileId).2
            = save db { V with friends := some fs' }
        ∧ fs'.filter (fun f => decide (f.profileId ≠ some targetProfileId
              ∧ f.profileId ≠ some (objectIdString targetProfileId)))
            = fs.filter (fun f => decide (f.profileId ≠ some targetProfileId
              ∧ f.profileId ≠ some (objectIdString targetProfileId))) := by
  cases viewerProfileId with
  | none => exact Or.inl (by simp [removeCloseFriend, isValidObjectId])
  | some id =>
    by_cases hv : isValidObjectId (some id) = true
    swap
    · exact Or.inl (by simp [removeCloseFriend, hv])
    by_cases ht : isValidObjectId (some targetProfileId) = true
    swap
    · exact Or.inl (by simp [removeCloseFriend, ht])
    cases hV : findById db id with
    | none => exact Or.inl (by simp [removeCloseFriend, hv, ht, hV])
    | some V =>
      cases hfs : V.friends with
      | none => exact Or.inl (by simp [removeCloseFriend, hv, ht, hV, hfs])
      | some fs =>
        have hstep := removeCloseFriend_step db id targetProfileId V fs hv ht hV hfs
        cases hup : findFriendIndex fs targetProfileId with
        | error err =>
          rw [hup] at hstep
          exact Or.inl (by rw [hstep])
        | ok r =>
          cases r with
          | none =>
            rw [hup] at hstep
            exact Or.inl (by rw [hstep])
          | some i =>
            rw [hup] at hstep
            exact Or.inr ⟨id, V, fs, downgradeOrRemove fs i, rfl, hV, hfs, by rw [hstep],
              filter_other_downgradeOrRemove fs targetProfileId i hup⟩


theorem preSave_fields (doc : Profile) :
    (preSave doc)._id = doc._id ∧ (preSave doc).userId = doc.userId
    ∧ (preSave doc).name = doc.name ∧ (preSave doc).username = doc.username
    ∧ (preSave doc).bio = doc.bio ∧ (preSave doc).avatar = doc.avatar
    ∧ (preSave doc).interests = doc.interests ∧ (preSave doc).isAnonymous = doc.isAnonymous
    ∧ (preSave doc).createdAt = doc.createdAt
    ∧ (∀ vis, doc.visibility = some vis → (preSave doc).visibility = some vis)
    ∧ (doc.visibility = none → (preSave doc).visibility = some defaultVisibility)
    ∧ (preSave doc).friends = doc.friends := by
  unfold preSave
  cases hvis : doc.visibility with
  | none => simp
  | some vis => simp [hvis]

theorem save_visibility (db : Db) (doc p : Profile) (hp : p ∈ save db doc) :
    p ∈ db ∨ p.visibility ≠ none := by
  unfold save at hp
  obtain ⟨q, hq, hqp⟩ := List.mem_map.1 hp
  by_cases hid : q._id = doc._id
  · right
    rw [if_pos hid] at hqp
    rw [← hqp]
    unfold preSave
    cases hvis : doc.visibility with
    | none => simp
    | some vis => simp [hvis]
  · left
    rw [if_neg hid] at hqp
    rw [← hqp]
    exact hq

/-- C19: on a collection whose records all carry a policy, as every record
written by `save` does, each of the four relationship operations either leaves
the collection unchanged or replaces only the records carrying the acting
viewer's id, every record found under another id staying as it was.  The new
viewer record keeps `_id`, `userId`, `name`, `username`, `bio`, `avatar`,
`interests`, `isAnonymous`, `createdAt` and `visibility`; its entries for peers
other than the target are the old ones, in the same order; and every record of
the collection still carries a policy afterwards. -/
theorem relationship_ops_frame (op : Db → Option String → String → Response × Db)
    (hop : op = followProfile ∨ op = unfollowProfile ∨ op = addCloseFriend
      ∨ op = removeCloseFriend)
    (db : Db) (hstored : ∀ p, p ∈ db → p.visibility ≠ none)
    (viewerProfileId : Option String) (targetProfileId : String) :
    ((op db viewerProfileId targetProfileId).2 = db
      ∨ ∃ id V V' fs fs', viewerProfileId = some id ∧ findById db id = some V
        ∧ (op db viewerProfileId targetProfileId).2
            = db.map (fun p => if p._id = V._id then V' else p)
        ∧ (∀ other T, findById db other = some T → T._id ≠ V._id →
            findById (op db viewerProfileId targetProfileId).2 other = some T)
        ∧ V'._id = V._id ∧ V'.userId = V.userId
        ∧ V'.name = V.name ∧ V'.username = V.username
        ∧ V'.bio = V.bio ∧ V'.avatar = V.avatar
        ∧ V'.interests = V.interests ∧ V'.isAnonymous = V.isAnonymous
        ∧ V'.createdAt = V.createdAt
        ∧ V'.visibility = V.visibility
        ∧ V.friends = some fs ∧ V'.friends = some fs'
        ∧ fs'.filter (fun f => decide (f.profileId ≠ some targetProfileId
              ∧ f.profileId ≠ some (objectIdString targetProfileId)))
            = fs.filter (fun f => decide (f.profileId ≠ some targetProfileId
              ∧ f.profileId ≠ some (objectIdString targetProfileId))))
    ∧ ∀ p, p ∈ (op db viewerProfileId targetProfileId).2 → p.visibility ≠ none := by
  have hshape : (op db viewerProfileId targetProfileId).2 = db
      ∨ ∃ id V fs fs', viewerProfileId = some id ∧ findById db id = some V
        ∧ V.friends = some fs
        ∧ (op db viewerProfileId targetProfileId).2
            = save db { V with friends := some fs' }
        ∧ fs'.filter (fun f => decide (f.profileId ≠ some targetProfileId
              ∧ f.profileId ≠ some (objectIdString targetProfileId)))
            = fs.filter (fun f => decide (f.profileId ≠ some targetProfileId
              ∧ f.profileId ≠ some (objectIdString targetProfileId))) := by
    rcases hop with h | h | h | h <;> subst h
    · exact followProfile_shape db viewerProfileId targetProfileId
    · exact unfollowProfile_shape db viewerProfileId targetProfileId
    · exact addCloseFriend_shape db viewerProfileId targetProfileId
    · exact removeCloseFriend_shape db viewerProfileId targetProfileId
  rcases hshape with h | ⟨id, V, fs, fs', hid, hV, hfs, hres, hfilter⟩
  · exact ⟨Or.inl h, by rw [h]; exact hstored⟩
  · obtain ⟨h1, h2, h3, h4, h5, h6, h7, h8, h9, h10, _, h12⟩ :=
      preSave_fields { V with friends := some fs' }
    have hVmem : V ∈ db := List.mem_of_find?_eq_some hV
    have hvis : (preSave { V with friends := some fs' }).visibility = V.visibility := by
      rcases Option.ne_none_iff_exists'.1 (hstored V hVmem) with ⟨vis, hv⟩
      exact (h10 vis hv).trans hv.symm
    constructor
    · refine Or.inr ⟨id, V, preSave { V with friends := some fs' }, fs, fs', hid, hV, hres,
        ?_, h1, h2, h3, h4, h5, h6, h7, h8, h9, hvis, hfs, h12, hfilter⟩
      intro other T hT hne
      rw [hres]
      exact findById_save_other db T _ other hT hne
    · intro p hp
      rw [hres] at hp
      rcases save_visibility db _ p hp with h | h
      · exact hstored p h
      · exact h

/-! ## Claims on the relationship operations, at sample inputs -/

/-- C11, evaluated where uniqueness fails: `bobFollowing` has one entry per
peer; `followProfile` with the id of `alice` in upper case, which
`isValidObjectId` accepts and `findById` resolves to `alice`, succeeds and
appends a second entry for `alice`. -/
theorem duplicate_edge_after_uppercase_follow :
    friendsOf db1 bobId
        = some [{ profileId := some aliceId, level := some "follower" },
                { profileId := some carolId, level := some "follower" }]
    ∧ isValidObjectId (some upperAliceId) = true
    ∧ findById db1 upperAliceId = some alice
    ∧ (followProfile db1 (some bobId) upperAliceId).1.status = 200
    ∧ friendsOf (followProfile db1 (some bobId) upperAliceId).2 bobId
        = some [{ profileId := some aliceId, level := some "follower" },
                { profileId := some carolId, level := some "follower" },
                { profileId := some aliceId, level := some "follower" }] := by
  decide

/-- C12, evaluated where the reported tier is wrong: `bobFollowing` holds a
follower entry for `alice` followed by a follower entry for `carol`;
`removeCloseFriend` on `alice` deletes the entry of `alice` and reports
`follower`, the level of the entry of `carol` that moved into its place. -/
theorem removeCloseFriend_reports_next_entry :
    friendsOf db1 bobId
        = some [{ profileId := some aliceId, level := some "follower" },
                { profileId := some carolId, level := some "follower" }]
    ∧ (removeCloseFriend db1 (some bobId) aliceId).1
        = { status := 200, message := "Close friend relationship removed",
            relationship := some "follower" }
    ∧ friendsOf (removeCloseFriend db1 (some bobId) aliceId).2 bobId
        = some [{ profileId := some carolId, level := some "follower" }] := by
  decide

/-- Witness of C13 on `alice`. -/
theorem self_target_rejected_witness :
    followProfile db0 (some alice._id) alice._id
        = ({ status := 400, message := "You cannot follow yourself", relationship := none },
            db0)
    ∧ addCloseFriend db0 (some alice._id) alice._id
        = ({ status := 400, message := "You cannot add yourself as close friend",
             relationship := none }, db0)
    ∧ friendsOf (followProfile db0 (some alice._id) alice._id).2 alice._id
        = friendsOf db0 alice._id
    ∧ friendsOf (addCloseFriend db0 (some alice._id) alice._id).2 alice._id
        = friendsOf db0 alice._id :=
  self_target_rejected db0 alice (by decide)

/-- C14, evaluated where a self-edge appears: `alice` has no entries;
`followProfile` by `alice` with her own id in upper case passes the test of
line 25, succeeds, and stores an entry whose `profileId` is the id of `alice`. -/
theorem self_edge_after_uppercase_follow :
    friendsOf db0 aliceId = some []
    ∧ isValidObjectId (some upperAliceId) = true
    ∧ objectIdString upperAliceId = aliceId
    ∧ (followProfile db0 (some aliceId) upperAliceId).1.status = 200
    ∧ friendsOf (followProfile db0 (some aliceId) upperAliceId).2 aliceId
        = some [{ profileId := some aliceId, level := some "follower" }] := by
  decide

/-- C16, evaluated where the edge survives: `unfollowProfile` by `bob` with the
id of `alice` in upper case succeeds and leaves the entry for `alice` in place;
with the id in lower case the entry is removed. -/
theorem unfollow_uppercase_keeps_edge :
    isValidObjectId (some upperAliceId) = true
    ∧ findById db1 upperAliceId = some alice
    ∧ (unfollowProfile db1 (some bobId) upperAliceId).1.status = 200
    ∧ friendsOf (unfollowProfile db1 (some bobId) upperAliceId).2 bobId
        = some [{ profileId := some aliceId, level := some "follower" },
                { profileId := some carolId, level := some "follower" }]
    ∧ friendsOf (unfollowProfile db1 (some bobId) aliceId).2 bobId
        = some [{ profileId := some carolId, level := some "follower" }] := by
  decide

/-- C20, counterexample: `aliceReordered` is `alice` with the public list
`[avatar, username]` instead of `[username, avatar]`, and the owner's views of
the two differ, in the value under `visibility`. -/
theorem owner_view_depends_on_list_order :
    aliceReordered = { alice with visibility := aliceReordered.visibility }
    ∧ alice.publicFields = some ["username", "avatar"]
    ∧ aliceReordered.publicFields = some ["avatar", "username"]
    ∧ aliceReordered.followerFields = alice.followerFields
    ∧ aliceReordered.closeFriendFields = alice.closeFriendFields
    ∧ getVisibleFields alice (some aliceId) ≠ getVisibleFields aliceReordered (some aliceId) := by
  decide

/-- Witness of C15: `bobFollowing` follows `alice`, for whom it already has
an entry. -/
theorem follow_sets_follower_idempotent_witness :
    (followProfile db1 (some bobFollowing._id) alice._id).1.status = 200
    ∧ ∃ fs fs', bobFollowing.friends = some fs
        ∧ friendsOf (followProfile db1 (some bobFollowing._id) alice._id).2 bobFollowing._id
            = some fs'
        ∧ (followProfile db1 (some bobFollowing._id) alice._id).1.relationship
            = some "follower"
        ∧ (∀ before e after, fs = before ++ e :: after → e.profileId = some alice._id →
            (∀ x, x ∈ before → x.profileId ≠ some alice._id) →
            fs' = before ++ { e with level := some "follower" } :: after)
        ∧ ((∀ x, x ∈ fs → x.profileId ≠ some alice._id) →
            fs' = fs ++ [{ profileId := some alice._id, level := some "follower" }])
        ∧ (∃ e, e ∈ fs' ∧ e.profileId = some alice._id ∧ e.level = some "follower")
        ∧ fs'.filter (fun f => decide (f.profileId ≠ some alice._id))
            = fs.filter (fun f => decide (f.profileId ≠ some alice._id))
        ∧ (followProfile (followProfile db1 (some bobFollowing._id) alice._id).2
              (some bobFollowing._id) alice._id).1.status = 200
        ∧ friendsOf (followProfile (followProfile db1 (some bobFollowing._id) alice._id).2
              (some bobFollowing._id) alice._id).2 bobFollowing._id = some fs' :=
  ⟨(follow_sets_follower_idempotent db1 bobFollowing alice (by decide) (by decide)
      (by decide)).1 ⟨by decide, by decide, _, rfl, by decide⟩,
   (follow_sets_follower_idempotent db1 bobFollowing alice (by decide) (by decide)
      (by decide)).2 (by decide)⟩

/-- Witness of C17: `bobFollowing` follows `alice` and then adds her as a close
friend. -/
theorem follow_then_close_single_edge_witness :
    (followProfile db1 (some bobFollowing._id) alice._id).1.status = 200
    ∧ (addCloseFriend (followProfile db1 (some bobFollowing._id) alice._id).2
          (some bobFollowing._id) alice._id).1.status = 200
    ∧ ∃ fs'', friendsOf (addCloseFriend (followProfile db1 (some bobFollowing._id)
          alice._id).2 (some bobFollowing._id) alice._id).2 bobFollowing._id = some fs''
        ∧ fs''.filter (fun f => decide (f.profileId = some alice._id))
            = [{ profileId := some alice._id, level := some "close" }] :=
  follow_then_close_single_edge db1 bobFollowing alice
    [{ profileId := some aliceId, level := some "follower" },
     { profileId := some carolId, level := some "follower" }]
    (by decide) (by decide) (by decide) (by decide) (by decide) rfl (by decide) (by decide)

/-- Witness of C18: `bob`, who has no entries, adds `alice` as a close friend
and then removes her. -/
theorem close_then_unclose_keeps_follower_witness :
    (addCloseFriend db0 (some bob._id) alice._id).1.status = 200
    ∧ (removeCloseFriend (addCloseFriend db0 (some bob._id) alice._id).2
          (some bob._id) alice._id).1
        = { status := 200, message := "Close friend relationship removed",
            relationship := some "follower" }
    ∧ ∃ fs' fs'', friendsOf (addCloseFriend db0 (some bob._id) alice._id).2 bob._id = some fs'
        ∧ friendsOf (removeCloseFriend (addCloseFriend db0 (some bob._id) alice._id).2
            (some bob._id) alice._id).2 bob._id = some fs''
        ∧ fs''.length = fs'.length
        ∧ fs''.filter (fun f => decide (f.profileId = some alice._id))
            = [{ profileId := some alice._id, level := some "follower" }] :=
  close_then_unclose_keeps_follower db0 bob alice []
    (by decide) (by decide) (by decide) (by decide) (by decide) rfl (by decide) (by decide)

/-- Witness of C19: `followProfile` by `bob` on `alice` in the collection of
the two, both of which carry the default policy. -/
theorem relationship_ops_frame_witness :
    ((followProfile db0 (some bobId) aliceId).2 = db0
      ∨ ∃ id V V' fs fs', some bobId = some id ∧ findById db0 id = some V
        ∧ (followProfile db0 (some bobId) aliceId).2
            = db0.map (fun p => if p._id = V._id then V' else p)
        ∧ (∀ other T, findById db0 other = some T → T._id ≠ V._id →
            findById (followProfile db0 (some bobId) aliceId).2 other = some T)
        ∧ V'._id = V._id ∧ V'.userId = V.userId
        ∧ V'.name = V.name ∧ V'.username = V.username
        ∧ V'.bio = V.bio ∧ V'.avatar = V.avatar
        ∧ V'.interests = V.interests ∧ V'.isAnonymous = V.isAnonymous
        ∧ V'.createdAt = V.createdAt
        ∧ V'.visibility = V.visibility
        ∧ V.friends = some fs ∧ V'.friends = some fs'
        ∧ fs'.filter (fun f => decide (f.profileId ≠ some aliceId
              ∧ f.profileId ≠ some (objectIdString aliceId)))
            = fs.filter (fun f => decide (f.profileId ≠ some aliceId
              ∧ f.profileId ≠ some (objectIdString aliceId))))
    ∧ ∀ p, p ∈ (followProfile db0 (some bobId) aliceId).2 → p.visibility ≠ none :=
  relationship_ops_frame followProfile (Or.inl rfl) db0 (by decide) (some bobId) aliceId

/-- Witness of the amended C20: `bob` views `alice` and `aliceReordered`. -/
theorem policy_lists_as_sets_witness :
    getVisibleFields alice (some bobId) = getVisibleFields aliceReordered (some bobId)
    ∧ ∀ v, some bobId = some v → v ≠ "" →
        getVisibleFields alice (some bobId)
            = Except.ok (filterProfileFields alice
                (jsSetSpread (allowedFieldsFor alice (findRelationship alice v))))
          ∧ (jsSetSpread (allowedFieldsFor alice (findRelationship alice v))).Nodup :=
  policy_lists_as_sets alice aliceReordered (some bobId) (by decide)
    ⟨by decide, fun k => by
      show k ∈ ["username", "avatar"] ↔ k ∈ ["avatar", "username"]
      simp only [List.mem_cons, List.mem_singleton, List.not_mem_nil, or_false]
      exact or_comm⟩
    ⟨by decide, fun k => Iff.rfl⟩ ⟨by decide, fun k => Iff.rfl⟩ (by decide)

/-! ## The profile view -/

theorem viewerKind_of_falsy (P : Profile) (viewer : Option String)
    (h : jsTruthy viewer = false) : viewerKind P viewer = Except.ok "anonymous" := by
  simp [viewerKind, h]

theorem viewerKind_of_owner (P : Profile) (h : P._id ≠ "") :
    viewerKind P (some P._id) = Except.ok "owner" := by
  simp [viewerKind, jsTruthy, jsToString, h, bind, Except.bind]

theorem viewerKind_of_other (P : Profile) (v : String) (hv : v ≠ "") (hne : v ≠ P._id) :
    viewerKind P (some v) = Except.ok "viewer" := by
  simp [viewerKind, jsTruthy, jsToString, hv, hne, bind, Except.bind]

theorem getProfileById_of_found (db : Db) (profileId : String) (P : Profile)
    (viewer : Option String) (view : View) (kind : String)
    (hvalid : isValidObjectId (some profileId) = true)
    (hP : findById db profileId = some P)
    (hview : getVisibleFields P viewer = Except.ok view)
    (hkind : viewerKind P viewer = Except.ok kind) :
    getProfileById db viewer profileId
      = { status := 200, message := none, profile := some view,
          relationshipLevel := some kind } := by
  simp [getProfileById, hvalid, hP, hview, hkind]

/-- C21, counterexample: `bob` is a follower of `aliceWithEdges`, so the
resolver answers `follower`, while `getProfileById` reports `viewer`; for the
anonymous viewer the resolver answers `public` and the handler `anonymous`. -/
theorem getProfileById_level_differs_from_resolver :
    findById db3 aliceId = some aliceWithEdges
    ∧ (getProfileById db3 (some bobId) aliceId).status = 200
    ∧ (getProfileById db3 (some bobId) aliceId).relationshipLevel = some "viewer"
    ∧ getRelationshipLevel aliceWithEdges (some bobId) = Except.ok "follower"
    ∧ (getProfileById db3 none aliceId).relationshipLevel = some "anonymous"
    ∧ getRelationshipLevel aliceWithEdges none = Except.ok "public" := by
  decide

/-- C21, amended: for an existing target profile `P`, `getProfileById` answers
200 with the view `getVisibleFields(P, v)` and a `relationshipLevel` that is
`anonymous` for a missing or empty viewer id, `owner` when the viewer id is the
`_id` of `P` (where the resolver answers `owner` too and the view is the
owner's), and `viewer` for every other viewer id, whatever entry `P.friends`
holds for it. -/
theorem getProfileById_reports_viewer_kind (db : Db) (profileId : String) (P : Profile)
    (viewer : Option String)
    (hvalid : isValidObjectId (some profileId) = true)
    (hP : findById db profileId = some P) :
    ∃ view, getVisibleFields P viewer = Except.ok view
      ∧ (getProfileById db viewer profileId).status = 200
      ∧ (getProfileById db viewer profileId).profile = some view
      ∧ (jsTruthy viewer = false →
          (getProfileById db viewer profileId).relationshipLevel = some "anonymous")
      ∧ (viewer = some P._id → P._id ≠ "" →
          (getProfileById db viewer profileId).relationshipLevel = some "owner"
          ∧ getRelationshipLevel P viewer = Except.ok "owner"
          ∧ view = ownerView P)
      ∧ (∀ v, viewer = some v → v ≠ "" → v ≠ P._id →
          (getProfileById db viewer profileId).relationshipLevel = some "viewer"
          ∧ view = filterProfileFields P (allowedFieldsFor P (findRelationship P v))) := by
  by_cases ht : jsTruthy viewer = false
  · have hview := getVisibleFields_of_falsy P viewer ht
    have hres := getProfileById_of_found db profileId P viewer _ _ hvalid hP hview
      (viewerKind_of_falsy P viewer ht)
    refine ⟨_, hview, by rw [hres], by rw [hres], fun _ => by rw [hres], ?_, ?_⟩
    · intro hv hid
      subst hv
      simp [jsTruthy, hid] at ht
    · intro v hv hne _
      subst hv
      simp [jsTruthy, hne] at ht
  · cases viewer with
    | none => simp [jsTruthy] at ht
    | some v =>
      have hv : v ≠ "" := by simpa [jsTruthy] using ht
      by_cases hid : v = P._id
      · subst hid
        have hview := getVisibleFields_of_owner P hv
        have hres := getProfileById_of_found db profileId P (some P._id) _ _ hvalid hP hview
          (viewerKind_of_owner P hv)
        refine ⟨_, hview, by rw [hres], by rw [hres], fun h => absurd h ht, ?_, ?_⟩
        · intro _ _
          refine ⟨by rw [hres], ?_, rfl⟩
          simp [getRelationshipLevel, jsTruthy, jsToString, hv, bind, Except.bind]
        · intro w hw _ hne
          exact absurd (Option.some.inj hw).symm hne
      · have hview := getVisibleFields_of_other P v hv hid
        have hres := getProfileById_of_found db profileId P (some v) _ _ hvalid hP hview
          (viewerKind_of_other P v hv hid)
        refine ⟨_, hview, by rw [hres], by rw [hres], fun h => absurd h ht, ?_, ?_⟩
        · intro h _
          exact absurd (Option.some.inj h) hid
        · intro w hw _ _
          have hvw : v = w := Option.some.inj hw
          subst hvw
          exact ⟨by rw [hres], rfl⟩

/-- Witness of the amended C21: `bob`, a follower of `aliceWithEdges`, asks for
her profile. -/
theorem getProfileById_reports_viewer_kind_witness :
    (getProfileById db3 (some bobId) aliceId).relationshipLevel = some "viewer"
    ∧ (getProfileById db3 (some bobId) aliceId).profile
        = some (filterProfileFields aliceWithEdges
            (allowedFieldsFor aliceWithEdges (findRelationship aliceWithEdges bobId))) :=
  match getProfileById_reports_viewer_kind db3 aliceId aliceWithEdges (some bobId)
      (by decide) (by decide) with
  | ⟨_, _, _, hprofile, _, _, hother⟩ =>
    ⟨(hother bobId rfl (by decide) (by decide)).1,
     by rw [hprofile, (hother bobId rfl (by decide) (by decide)).2]⟩

theorem getVisibleFields_eq_allowedFieldsOf (P : Profile) (viewer : Option String)
    (hviewer : viewer ≠ some P._id) :
    getVisibleFields P viewer
      = Except.ok (filterProfileFields P (allowedFieldsOf P viewer)) := by
  cases viewer with
  | none => exact getVisibleFields_of_falsy P none rfl
  | some v =>
    by_cases hv : v = ""
    · rw [getVisibleFields_of_falsy P (some v) (by simp [jsTruthy, hv])]
      simp [allowedFieldsOf, hv]
    · have hne : v ≠ P._id := fun h => hviewer (by rw [h])
      rw [getVisibleFields_of_other_dedup P v hv hne]
      simp [allowedFieldsOf, hv]

theorem allowedFieldsOf_congr (P P' : Profile) (viewer : Option String)
    (hvis : P'.visibility = P.visibility) (hfriends : P'.friends = P.friends) :
    allowedFieldsOf P' viewer = allowedFieldsOf P viewer := by
  unfold allowedFieldsOf allowedFieldsFor findRelationship Profile.publicFields
    Profile.followerFields Profile.closeFriendFields
  rw [hvis, hfriends]

theorem filterProfileFields_agree (P P' : Profile) (l : List String)
    (hid : P'._id = P._id) (hagree : ∀ k, k ∈ l → k ∈ whitelist → P.prop k = P'.prop k) :
    filterProfileFields P l = filterProfileFields P' l := by
  have hw : ∀ k, k ∈ whitelist → k ∈ l → P.prop k = P'.prop k :=
    fun k hk hl => hagree k hl hk
  have h1 : (if l.contains "username" then [("username", JsVal.ofStr P.username)] else [])
      = (if l.contains "username" then [("username", JsVal.ofStr P'.username)] else []) := by
    by_cases h : "username" ∈ l
    · have := hw "username" (by decide) h
      simp only [Profile.prop] at this
      simp at this
      simp [h, this]
    · simp [h]
  have h2 : (if l.contains "name" then [("name", JsVal.ofStr P.name)] else [])
      = (if l.contains "name" then [("name", JsVal.ofStr P'.name)] else []) := by
    by_cases h : "name" ∈ l
    · have := hw "name" (by decide) h
      simp only [Profile.prop] at this
      simp at this
      simp [h, this]
    · simp [h]
  have h3 : (if l.contains "bio" then [("bio", JsVal.ofStr P.bio)] else [])
      = (if l.contains "bio" then [("bio", JsVal.ofStr P'.bio)] else []) := by
    by_cases h : "bio" ∈ l
    · have := hw "bio" (by decide) h
      simp only [Profile.prop] at this
      simp at this
      simp [h, this]
    · simp [h]
  have h4 : (if l.contains "avatar" then [("avatar", JsVal.ofStr P.avatar)] else [])
      = (if l.contains "avatar" then [("avatar", JsVal.ofStr P'.avatar)] else []) := by
    by_cases h : "avatar" ∈ l
    · have := hw "avatar" (by decide) h
      simp only [Profile.prop] at this
      simp at this
      simp [h, this]
    · simp [h]
  have h5 : (if l.contains "interests"
        then [("interests", JsVal.ofStrings P.interests)] else [])
      = (if l.contains "interests"
        then [("interests", JsVal.ofStrings P'.interests)] else []) := by
    by_cases h : "interests" ∈ l
    · have := hw "interests" (by decide) h
      simp only [Profile.prop] at this
      simp at this
      simp [h, this]
    · simp [h]
  have h6 : (if l.contains "isAnonymous"
        then [("isAnonymous", JsVal.ofBool P.isAnonymous)] else [])
      = (if l.contains "isAnonymous"
        then [("isAnonymous", JsVal.ofBool P'.isAnonymous)] else []) := by
    by_cases h : "isAnonymous" ∈ l
    · have := hw "isAnonymous" (by decide) h
      simp only [Profile.prop] at this
      simp at this
      simp [h, this]
    · simp [h]
  have h7 : (if l.contains "createdAt"
        then [("createdAt", JsVal.ofDate P.createdAt)] else [])
      = (if l.contains "createdAt"
        then [("createdAt", JsVal.ofDate P'.createdAt)] else []) := by
    by_cases h : "createdAt" ∈ l
    · have := hw "createdAt" (by decide) h
      simp only [Profile.prop] at this
      simp at this
      simp [h, this]
    · simp [h]
  unfold filterProfileFields
  rw [hid, h1, h2, h3, h4, h5, h6, h7]

/-- C22: for a viewer other than the owner and two profiles with the same
`_id`, the same policy and the same `friends`, which agree on the value of
every field in the allowed-field list built for that viewer, `getVisibleFields`
returns the same view, namely the projection onto that list; fields outside the
list have no influence on it. -/
theorem hidden_fields_noninterference (P P' : Profile) (viewer : Option String)
    (hid : P'._id = P._id) (hvis : P'.visibility = P.visibility)
    (hfriends : P'.friends = P.friends) (hviewer : viewer ≠ some P._id)
    (hagree : ∀ k, k ∈ allowedFieldsOf P viewer → P.prop k = P'.prop k) :
    getVisibleFields P viewer = getVisibleFields P' viewer
    ∧ getVisibleFields P viewer
        = Except.ok (filterProfileFields P (allowedFieldsOf P viewer)) := by
  have h1 := getVisibleFields_eq_allowedFieldsOf P viewer hviewer
  have h2 := getVisibleFields_eq_allowedFieldsOf P' viewer (by rw [hid]; exact hviewer)
  refine ⟨?_, h1⟩
  rw [h1, h2, allowedFieldsOf_congr P P' viewer hvis hfriends]
  congr 1
  exact filterProfileFields_agree P P' _ hid (fun k hk _ => hagree k hk)

/-- Witness of C22: `erin`, whose entry is blocked, receives the same view of
`aliceWithEdges` and of `aliceRewritten`, which differ in `userId`, `name`,
`bio`, `interests`, `isAnonymous` and `createdAt`. -/
theorem hidden_fields_noninterference_witness :
    aliceRewritten ≠ aliceWithEdges
    ∧ getVisibleFields aliceWithEdges (some erinId)
        = getVisibleFields aliceRewritten (some erinId)
    ∧ getVisibleFields aliceWithEdges (some erinId)
        = Except.ok (filterProfileFields aliceWithEdges
            (allowedFieldsOf aliceWithEdges (some erinId))) :=
  ⟨by decide,
   hidden_fields_noninterference aliceWithEdges aliceRewritten (some erinId)
     rfl rfl rfl (by decide) (by decide)⟩

/-! ## Documents with malformed field lists -/

theorem toRaw_publicFields (P : Profile) :
    P.toRaw.publicFields = RawFields.ofOption P.publicFields := by
  unfold RawProfile.publicFields Profile.publicFields Profile.toRaw
  cases P.visibility with
  | none => rfl
  | some vis =>
    cases hp : vis.public with
    | none => simp [Visibility.toRaw, hp, RawFields.ofOption]
    | some t => simp [Visibility.toRaw, hp]

theorem toRaw_followerFields (P : Profile) :
    P.toRaw.followerFields = RawFields.ofOption P.followerFields := by
  unfold RawProfile.followerFields Profile.followerFields Profile.toRaw
  cases P.visibility with
  | none => rfl
  | some vis =>
    cases hp : vis.follower with
    | none => simp [Visibility.toRaw, hp, RawFields.ofOption]
    | some t => simp [Visibility.toRaw, hp]

theorem toRaw_closeFriendFields (P : Profile) :
    P.toRaw.closeFriendFields = RawFields.ofOption P.closeFriendFields := by
  unfold RawProfile.closeFriendFields Profile.closeFriendFields Profile.toRaw
  cases P.visibility with
  | none => rfl
  | some vis =>
    cases hp : vis.closeFriend with
    | none => simp [Visibility.toRaw, hp, RawFields.ofOption]
    | some t => simp [Visibility.toRaw, hp]

theorem rawOr_ofOption (x : Option (List String)) (d : List String) :
    rawOr (RawFields.ofOption x) (RawFields.strings d) = RawFields.strings (x.getD d) := by
  cases x <;> rfl

theorem ownerViewRaw_toRaw (P : Profile) : ownerViewRaw P.toRaw = (ownerView P).toRaw := by
  unfold ownerViewRaw ownerView View.toRaw Profile.toRaw
  cases P.username <;> cases P.name <;> cases P.bio <;> cases P.avatar <;>
    cases P.interests <;> cases P.isAnonymous <;> cases P.createdAt <;>
    cases P.visibility <;> rfl

theorem allowedFieldsForRaw_toRaw (P : Profile) (relationship : Option Friend) :
    allowedFieldsForRaw P.toRaw relationship
      = Except.ok (RawFields.strings (allowedFieldsFor P relationship)) := by
  unfold allowedFieldsForRaw allowedFieldsFor
  simp only [toRaw_publicFields, toRaw_followerFields, toRaw_closeFriendFields,
    rawOr_ofOption, rawSpread, bind, Except.bind]
  split
  · rfl
  · split <;> rfl

/-- On a well-typed document the two embeddings of `getVisibleFields` agree. -/
theorem getVisibleFieldsRaw_toRaw (P : Profile) (viewer : Option String) :
    getVisibleFieldsRaw P.toRaw viewer = (getVisibleFields P viewer).map View.toRaw := by
  have hdoc : P.toRaw.doc = P := rfl
  have hpub : rawOr P.toRaw.publicFields (RawFields.strings defaultPublicFields)
      = RawFields.strings (P.publicFields.getD defaultPublicFields) := by
    rw [toRaw_publicFields, rawOr_ofOption]
  by_cases ht : jsTruthy viewer = false
  · rw [getVisibleFields_of_falsy P viewer ht]
    simp only [getVisibleFieldsRaw, getVisibleFieldsRawTry, ht, hpub, filterProfileFieldsRaw,
      hdoc, Except.map, Bool.not_false, if_true]
  · cases viewer with
    | none => simp [jsTruthy] at ht
    | some v =>
      have hv : v ≠ "" := by simpa [jsTruthy] using ht
      by_cases hid : v = P._id
      · subst hid
        rw [getVisibleFields_of_owner P hv]
        have h : getVisibleFieldsRawTry P.toRaw (some P._id)
            = Except.ok (ownerViewRaw P.toRaw) := by
          simp [getVisibleFieldsRawTry, jsTruthy, jsToString, hv, bind, Except.bind,
            Profile.toRaw]
        simp [getVisibleFieldsRaw, h, ownerViewRaw_toRaw, Except.map]
      · rw [getVisibleFields_of_other_dedup P v hv hid]
        have h : getVisibleFieldsRawTry P.toRaw (some v)
            = Except.ok (filterProfileFields P
                (jsSetSpread (allowedFieldsFor P (findRelationship P v)))).toRaw := by
          simp [getVisibleFieldsRawTry, jsTruthy, jsToString, hv, hid, bind, Except.bind,
            hdoc, allowedFieldsForRaw_toRaw, rawSetSpread, filterProfileFieldsRaw]
        simp [getVisibleFieldsRaw, h, Except.map]

/-- As long as `visibility.public.fields` is missing or an array,
`getVisibleFields` returns a view: a malformed follower or close-friend list
is caught by lines 70-75. -/
theorem getVisibleFieldsRaw_total_of_public_list (P : RawProfile) (viewer : Option String)
    (hpub : P.publicFields ≠ RawFields.scalar) :
    ∃ view, getVisibleFieldsRaw P viewer = Except.ok view := by
  have hcatch : ∃ view, filterProfileFieldsRaw P
      (rawOr P.publicFields (RawFields.strings defaultPublicFields)) = Except.ok view := by
    cases h : P.publicFields with
    | missing => exact ⟨_, rfl⟩
    | strings xs => exact ⟨_, rfl⟩
    | scalar => exact absurd h hpub
  unfold getVisibleFieldsRaw
  cases getVisibleFieldsRawTry P viewer with
  | ok view => exact ⟨view, rfl⟩
  | error err => exact hcatch

/-- C6, evaluated where an exception escapes: `brokenPublicList` holds the
number 5 under `visibility.public.fields`.  For the anonymous viewer, for
`erin` (blocked) and for the follower `bob` the `try` block raises a
`TypeError` and the `catch` block, which passes the same value to
`filterProfileFields`, raises it again; only the owner is answered.  With the
number under `visibility.follower.fields` instead, the `catch` block answers
`bob` with the public view. -/
theorem getVisibleFields_throws_on_malformed_public_list :
    brokenPublicList.publicFields = RawFields.scalar
    ∧ getVisibleFieldsRaw brokenPublicList none = Except.error JsError.typeError
    ∧ getVisibleFieldsRaw brokenPublicList (some erinId) = Except.error JsError.typeError
    ∧ getVisibleFieldsRaw brokenPublicList (some bobId) = Except.error JsError.typeError
    ∧ getVisibleFieldsRaw brokenPublicList (some aliceId)
        = Except.ok (ownerViewRaw brokenPublicList)
    ∧ getVisibleFieldsRawTry brokenFollowerList (some bobId) = Except.error JsError.typeError
    ∧ getVisibleFieldsRaw brokenFollowerList (some bobId)
        = Except.ok (filterProfileFields aliceWithEdges ["username", "avatar"]).toRaw := by
  decide

end OnionPost
